import Mathlib

/-
  Verification of the LastExpress debug console (engines/lastexpress/debug.cpp):
  the deferred command scheduler (store on first dispatch, execute on the
  post-redraw pump), the archive mount/restore helpers, and the session
  snapshot used by the scripted fight and beetle sequences.

  The C++ methods of LastExpress::Debugger are shallowly embedded as pure
  functions over an explicit state `S`.  External collaborators (resource
  resolver, fight engine, beetle mini-game, event queue, graphics) are
  abstracted as an environment record `Env` of oracles plus an `Effect`
  trace recording every draw / print / sound call the debugger makes.
-/

set_option maxHeartbeats 1000000

namespace LastExpress

/-- Identifiers of the commands registered in the Debugger constructor. -/
inductive CmdId where
  | help | ls | dump | showframe | showbg | playseq | playsnd | playsbe | playnis
  | loadscene | fight | beetle | delta | time | showData | entity | chapter | clear
  deriving DecidableEq, Repr

/-- The drawing surfaces of GraphicsManager (kBackgroundA / C / Overlay / All). -/
inductive Bg where
  | a | c | overlay | all
  deriving DecidableEq, Repr

/-- One observable call the debugger makes into an external subsystem
(debugPrintf text, graphics, cursor, sound, timing, game logic). -/
inductive Effect where
  | print (msg : String)
  | clearBg (bg : Bg)
  | askForRedraw
  | redrawScreen
  | cursorShow (visible : Bool)
  | cursorStyle (overHotspot : Bool)
  | drawFrame (file : String) (idx : Nat)
  | drawSeqFrame (file : String) (frame : Nat)
  | drawBackground (file : String)
  | drawSubtitle (file : String) (time : Nat)
  | drawScene (idx : Nat)
  | delayMillis (ms : Nat)
  | stopMixer
  | loadSound (file : String)
  | playNisAnimation (file : String)
  | playAnimationEvent (idx : Int)
  | fightSetup (t : Int)
  | beetleUpdate
  | stopAllSound
  | switchChapter (chapter : Nat)
  | printTime (t : Int)
  | printDump (what : String)
  | printEntityDump (idx : Nat)
  | printEntityList
  deriving DecidableEq, Repr

/-- Events polled inside the beetle mini-game sub-loop.  A button-up event
carries the mouse position and the oracle answer of Beetle::catchBeetle. -/
inductive BeetleEvent where
  | keyEscape
  | keyOther
  | mouseMove (overHotspot : Bool)
  | buttonUp (x y : Nat) (catches : Bool)
  | otherEvent
  deriving DecidableEq, Repr

/-- The mutable game fields the debugger reads or writes: the resource
manager's mounted archive volume, the volume whose scene data file is
loaded, and the session fields (chapter, scene, the beetle inventory item's
location, the time delta, the logic coordinates).  `hung` marks that the
beetle sub-loop exhausted its event source while still playing; the real
code would block forever there, so nothing after that point runs. -/
structure GameState where
  mountedVolume : Nat
  sceneDataVolume : Nat
  chapter : Nat
  scene : Nat
  beetleLocation : Nat
  timeDelta : Nat
  coordX : Nat
  coordY : Nat
  hung : Bool
  deriving DecidableEq, Repr

/-- The pending-command slot of the Debugger: `_command` (nullable functor),
`_commandParams` (nullable owned copy of argv), `_numParams`, plus the
console detach flag set by cmdExit. -/
structure DebuggerSlot where
  command : Option CmdId
  commandParams : Option (List String)
  numParams : Nat
  detachRequested : Bool
  deriving DecidableEq, Repr

/-- Full state: game fields, the debugger slot, and the effect trace. -/
structure S where
  game : GameState
  dbg : DebuggerSlot
  log : List Effect
  deriving DecidableEq, Repr

abbrev Args := List String

/-- Oracles for the external subsystems the debugger calls into. -/
structure Env where
  /-- ResourceManager::loadArchive(index) succeeds for this volume. -/
  canLoad : Nat → Bool
  /-- ResourceManager::hasFile on the given mounted volume. -/
  hasFile : Nat → String → Bool
  /-- Sequence::load result: none = load failed, some n = loaded, count() = n. -/
  seqCount : Nat → String → Option Nat
  /-- Sequence::getFrame(idx) returns a non-null frame. -/
  frameOk : Nat → String → Nat → Bool
  /-- ResourceManager::loadBackground returns non-null. -/
  bgOk : Nat → String → Bool
  /-- SubtitleManager::load result: none = failed, some t = loaded, getMaxTime() = t. -/
  sbeLoad : Nat → String → Option Nat
  /-- pollEvent during the playsbe loop: none = no event (break),
      some true = right button up (break), some false = any other event. -/
  sbeEvent : Nat → Option Bool
  /-- Animation::load for playnis succeeds. -/
  nisLoad : Nat → String → Bool
  /-- right-click interrupt during iteration n of the playseq loop. -/
  rightClick : Nat → Bool
  /-- SceneManager::get returns a non-null scene (volume of loaded scene data, index). -/
  sceneOk : Nat → Nat → Bool
  /-- Fight::setup returns true when the fight was lost. -/
  fightLost : Int → Bool
  /-- scene the fight engine leaves in the game state (type, previous scene). -/
  fightScene : Int → Nat → Nat
  /-- chapter left by Logic::switchChapter given the chapter it was entered with. -/
  chapterAfterSwitch : Nat → Nat
  /-- events polled by the beetle sub-loop, one batch per outer iteration. -/
  beetleEvents : List (List BeetleEvent)
  /-- names printed by listMatchingMembers (volume, filter). -/
  lsNames : Nat → String → List String
  /-- all streams could be created for the dump command. -/
  dumpStreamsOk : Bool
  /-- LastExpressEngine::isDemo. -/
  isDemo : Bool

/-- Append one effect to the trace. -/
def emit (e : Effect) (s : S) : S :=
  { s with log := s.log ++ [e] }

/-- Append several effects to the trace. -/
def emits (es : List Effect) (s : S) : S :=
  { s with log := s.log ++ es }

/-- Modelled from the spec: ArchiveIndex constant kArchiveCd1 (resource.h is
not part of this excerpt; volumes are the integers 1-3). -/
def kArchiveCd1 : Nat := 1

/-- Modelled from the spec: ArchiveIndex constant kArchiveCd2. -/
def kArchiveCd2 : Nat := 2

/-- Modelled from the spec: ArchiveIndex constant kArchiveCd3. -/
def kArchiveCd3 : Nat := 3

/-- Modelled from the spec: ChapterIndex constant kChapter1 (shared.h is not
part of this excerpt; chapters are the integers 1-5). -/
def kChapter1 : Nat := 1

/-- Modelled from the spec: ChapterIndex constant kChapter2. -/
def kChapter2 : Nat := 2

/-- Modelled from the spec: ChapterIndex constant kChapter3. -/
def kChapter3 : Nat := 3

/-- Modelled from the spec: ChapterIndex constant kChapter4. -/
def kChapter4 : Nat := 4

/-- Modelled from the spec: ChapterIndex constant kChapter5. -/
def kChapter5 : Nat := 5

/-- Modelled from the spec: FightType constant kFightMilos; fight.h is not in
this excerpt, the ids 2001-2005 come from the command's own usage string
"fight <id> (id=2001-2005)" and the volume table of the spec. -/
def kFightMilos : Int := 2001

/-- Modelled from the spec: FightType constant kFightAnna (the fight whose
assets live on volume 2). -/
def kFightAnna : Int := 2002

/-- Modelled from the spec: FightType constant kFightIvo. -/
def kFightIvo : Int := 2003

/-- Modelled from the spec: FightType constant kFightSalko. -/
def kFightSalko : Int := 2004

/-- Modelled from the spec: FightType constant kFightVesna. -/
def kFightVesna : Int := 2005

/-- Modelled from the spec: ObjectLocation constant kObjectLocation3. -/
def kObjectLocation3 : Nat := 3

/-- Numeric value of a decimal digit character (none otherwise). -/
def digitVal (c : Char) : Option Nat :=
  if c = '0' then some 0
  else if c = '1' then some 1
  else if c = '2' then some 2
  else if c = '3' then some 3
  else if c = '4' then some 4
  else if c = '5' then some 5
  else if c = '6' then some 6
  else if c = '7' then some 7
  else if c = '8' then some 8
  else if c = '9' then some 9
  else none

/-- Parse a run of decimal digits, strtol-style: accumulate until the first
non-digit. -/
def parseNat : List Char → Nat → Nat
  | [], acc => acc
  | c :: cs, acc =>
    match digitVal c with
    | some d => parseNat cs (acc * 10 + d)
    | none => acc

/-- Does the character list start with a decimal digit? -/
def startsWithDigit : List Char → Bool
  | [] => false
  | c :: _ => (digitVal c).isSome

/-- Debugger::getNumber - strtol(arg, nullptr, 0): an optional minus sign
followed by decimal digits, 0 when nothing parses.  (The hexadecimal and
octal prefixes of base 0 are not modelled; every input the claims use is
plain decimal, where this agrees with strtol.) -/
def getNumber (arg : String) : Int :=
  match arg.data with
  | '-' :: cs => if startsWithDigit cs then - Int.ofNat (parseNat cs 0) else 0
  | cs => if startsWithDigit cs then Int.ofNat (parseNat cs 0) else 0

/-- Common::String::contains(char) - does the string contain the character. -/
def strContains (s : String) (c : Char) : Bool :=
  s.data.contains c

/-- Cast of a C int to a 32-bit unsigned enum value (used for SceneIndex and
EntityIndex casts of getNumber results). -/
def toU32 (n : Int) : Nat :=
  (n % ((2 : Int) ^ 32)).toNat

/-- Cast of a C int to uint16 (the frame index cast in cmdShowFrame). -/
def toU16 (n : Int) : Nat :=
  (n % ((2 : Int) ^ 16)).toNat

/-- Debugger::hasCommand - true iff _numParams != 0. -/
def hasCommand (s : S) : Bool :=
  s.dbg.numParams != 0

/-- Debugger::resetCommand - SAFE_DELETE(_command), free every copied
parameter string and the array, null the array, zero the count. -/
def resetCommand (s : S) : S :=
  { s with dbg.command := none, dbg.commandParams := none, dbg.numParams := 0 }

/-- Modelled from the spec: GUI::Debugger::cmdExit (gui/debugger.cpp is not
part of this excerpt) - requests that the console terminate its input loop
(detach) and returns false. -/
def cmdExit (_argc : Nat) (_argv : Args) (s : S) : S × Bool :=
  ({ s with dbg.detachRequested := true }, false)

/-- Debugger::copyCommand - deep-copies argv[0..argc) into the owned
parameter array, sets _numParams, then exits the debugger via cmdExit.
(The malloc-failure early return is not modelled: allocation succeeds.) -/
def copyCommand (argc : Nat) (argv : Args) (s : S) : S :=
  let s := { s with dbg.commandParams := some (argv.take argc),
                    dbg.numParams := argc }
  (cmdExit 0 [] s).1

/-- Debugger::loadArchive - rejects indices outside [1,3] with a message,
fails silently when the resource manager cannot open the volume, and on
success also reloads the scene data file for that volume. -/
def loadArchive (env : Env) (index : Int) (s : S) : S × Bool :=
  if index < 1 ∨ index > 3 then
    (emit (.print ("Invalid cd number (was: " ++ toString index ++ ", valid: [1-3])")) s, false)
  else if env.canLoad index.toNat then
    ({ s with game.mountedVolume := index.toNat, game.sceneDataVolume := index.toNat }, true)
  else
    (s, false)

/-- The volume index computed by the switch statement in
Debugger::restoreArchive: chapter 1 (and the default case) selects CD 1,
chapters 2 and 3 select CD 2, chapters 4 and 5 select CD 3. -/
def defaultVolumeForChapter (chapter : Nat) : Nat :=
  if chapter = kChapter1 then kArchiveCd1
  else if chapter = kChapter2 then kArchiveCd2
  else if chapter = kChapter3 then kArchiveCd2
  else if chapter = kChapter4 then kArchiveCd3
  else if chapter = kChapter5 then kArchiveCd3
  else kArchiveCd1

/-- Debugger::restoreArchive - remounts the chapter-derived default volume
(ignoring the resource manager's result) and reloads the scene data file
for it unconditionally. -/
def restoreArchive (env : Env) (s : S) : S :=
  let index := defaultVolumeForChapter s.game.chapter
  let s := if env.canLoad index then { s with game.mountedVolume := index } else s
  { s with game.sceneDataVolume := index }

/-- Debugger::cmdHelp - prints the command list. -/
def cmdHelp (_env : Env) (_argc : Nat) (_argv : Args) (s : S) : S × Bool :=
  (emits [.print "Debug flags", .print "-----------",
          .print " debugflag_list - Lists the available debug flags and their status",
          .print " debugflag_enable - Enables a debug flag",
          .print " debugflag_disable - Disables a debug flag", .print "",
          .print "Commands", .print "--------",
          .print " ls - list files in the archive",
          .print " dump - dump a list of files in all archives", .print "",
          .print " showframe - show a frame from a sequence",
          .print " showbg - show a background",
          .print " playseq - play a sequence",
          .print " playsnd - play a sound",
          .print " playsbe - play a subtitle",
          .print " playnis - play an animation", .print "",
          .print " loadscene - load a scene",
          .print " fight - start a fight",
          .print " beetle - start the beetle game", .print "",
          .print " delta - Adjust the time delta",
          .print " show - show game data",
          .print " entity - show entity data", .print "",
          .print " loadgame - load a saved game",
          .print " chapter - switch to a specific chapter",
          .print " clear - clear the screen", .print ""] s, true)

/-- Debugger::cmdListFiles - lists matching resource names, with an optional
volume override that is restored afterwards. -/
def cmdListFiles (env : Env) (argc : Nat) (argv : Args) (s : S) : S × Bool :=
  if argc = 2 ∨ argc = 3 then
    match (if argc = 3 then loadArchive env (getNumber (argv.getD 2 "")) s else (s, true)) with
    | (s0, false) => (s0, true)
    | (s0, true) =>
      let names := env.lsNames s0.game.mountedVolume (argv.getD 1 "")
      let s1 := emit (.print ("Number of matches: " ++ toString names.length)) s0
      let s1 := emits (names.map (fun n => Effect.print (" " ++ n))) s1
      let s1 := if argc = 3 then restoreArchive env s1 else s1
      (s1, true)
  else
    (emit (.print "Syntax: ls <filter> (use * for all) (<cd number>)") s, true)

/-- Debugger::cmdDumpFiles - dumps the file lists of every archive.  The
OUTPUT_ARCHIVE_FILES macro mounts each archive by file name in turn and
ends with restoreArchive on both the success path and the cannot-create-
stream early return; only the net effect of the whole command is modelled
(the listing output is external debugC logging). -/
def cmdDumpFiles (env : Env) (argc : Nat) (_argv : Args) (s : S) : S × Bool :=
  if argc = 1 then
    if env.dumpStreamsOk then
      (restoreArchive env (emit (.printDump "archives") s), true)
    else
      (restoreArchive env (emit (.print "ERROR: Cannot create stream for file") s), true)
  else
    (emit (.print "Syntax: dump") s, true)

/-- Debugger::cmdShowFrame - deferred; draws one frame of a sequence. -/
def cmdShowFrame (env : Env) (argc : Nat) (argv : Args) (s : S) : S × Bool :=
  if argc = 3 ∨ argc = 4 then
    match (if argc = 4 then loadArchive env (getNumber (argv.getD 3 "")) s else (s, true)) with
    | (s0, false) => (s0, true)
    | (s0, true) =>
      let filename := (argv.getD 1 "") ++ ".seq"
      if env.hasFile s0.game.mountedVolume filename = false then
        (emit (.print ("Cannot find file: " ++ filename)) s0, true)
      else if hasCommand s0 = false then
        -- store command and exit the debugger
        let s1 := { s0 with dbg.command := some CmdId.showframe }
        let s1 := copyCommand argc argv s1
        cmdExit 0 [] s1
      else
        match env.seqCount s0.game.mountedVolume filename with
        | some _ =>
          let s1 := emit (.cursorShow false) s0
          let s1 := emit (.clearBg Bg.overlay) s1
          if env.frameOk s0.game.mountedVolume filename (toU16 (getNumber (argv.getD 2 ""))) = false then
            let s2 := emit (.print ("Invalid frame index: " ++ argv.getD 2 "")) s1
            (resetCommand s2, true)
          else
            let s2 := emit (.drawFrame filename (toU16 (getNumber (argv.getD 2 "")))) s1
            let s2 := emit .askForRedraw s2
            let s2 := emit .redrawScreen s2
            let s2 := emit (.delayMillis 1000) s2
            let s2 := emit (.cursorShow true) s2
            let s2 := resetCommand s2
            let s2 := if argc = 4 then restoreArchive env s2 else s2
            (s2, true)
        | none =>
          let s1 := resetCommand s0
          let s1 := if argc = 4 then restoreArchive env s1 else s1
          (s1, true)
  else
    (emit (.print "Syntax: cmd_showframe <seqname> <index> (<cd number>)") s, true)

/-- Debugger::cmdShowBg - deferred; draws a background. -/
def cmdShowBg (env : Env) (argc : Nat) (argv : Args) (s : S) : S × Bool :=
  if argc = 2 ∨ argc = 3 then
    match (if argc = 3 then loadArchive env (getNumber (argv.getD 2 "")) s else (s, true)) with
    | (s0, false) => (s0, true)
    | (s0, true) =>
      let filename := argv.getD 1 ""
      if env.hasFile s0.game.mountedVolume (filename ++ ".BG") = false then
        (emit (.print ("Cannot find file: " ++ filename ++ ".BG")) s0, true)
      else if hasCommand s0 = false then
        let s1 := { s0 with dbg.command := some CmdId.showbg }
        let s1 := copyCommand argc argv s1
        cmdExit 0 [] s1
      else
        let s1 := emit (.clearBg Bg.c) s0
        let s1 :=
          if env.bgOk s1.game.mountedVolume filename then
            emit .askForRedraw (emit (.drawBackground filename) s1)
          else s1
        let s1 := emit .redrawScreen s1
        let s1 := if argc = 3 then restoreArchive env s1 else s1
        let s1 := emit (.delayMillis 1000) s1
        (resetCommand s1, true)
  else
    (emit (.print "Syntax: showbg <bgname> (<cd number>)") s, true)

/-- The do-while frame loop of cmdPlaySeq: draw the current frame, poll for a
right-click interrupt, delay, advance while nextFrame() succeeds.
`count` is the number of frames still to show, `i` the current index. -/
def seqFrames (env : Env) (file : String) : Nat → Nat → S → S
  | 0, _, s => s
  | count + 1, i, s =>
    let s := emit (.clearBg Bg.a) s
    let s := emit (.drawSeqFrame file i) s
    let s := emit .askForRedraw s
    let s := emit .redrawScreen s
    if env.rightClick i then s
    else
      let s := emit (.delayMillis 175) s
      if count = 0 then s
      else seqFrames env file count (i + 1) s

/-- Debugger::cmdPlaySeq - deferred; plays a full sequence.  In the
executing phase a sequence that fails to load falls through to
resetCommand, but a sequence that loads with zero frames returns false
without resetCommand (the slot is left pending). -/
def cmdPlaySeq (env : Env) (argc : Nat) (argv : Args) (s : S) : S × Bool :=
  if argc = 2 ∨ argc = 3 then
    match (if argc = 3 then loadArchive env (getNumber (argv.getD 2 "")) s else (s, true)) with
    | (s0, false) => (s0, true)
    | (s0, true) =>
      let filename := (argv.getD 1 "") ++ ".seq"
      if env.hasFile s0.game.mountedVolume filename = false then
        (emit (.print ("Cannot find file: " ++ filename)) s0, true)
      else if hasCommand s0 = false then
        let s1 := { s0 with dbg.command := some CmdId.playseq }
        let s1 := copyCommand argc argv s1
        cmdExit 0 [] s1
      else
        match env.seqCount s0.game.mountedVolume filename with
        | none =>
          -- load failed: delete the sequence, then reset and restore
          let s1 := resetCommand s0
          let s1 := if argc = 3 then restoreArchive env s1 else s1
          (s1, true)
        | some 0 =>
          -- no frame to show: return false WITHOUT resetCommand
          (s0, false)
        | some (count + 1) =>
          let s1 := emit (.cursorShow false) s0
          let s1 := seqFrames env filename (count + 1) 0 s1
          let s1 := emit (.cursorShow true) s1
          let s1 := resetCommand s1
          let s1 := if argc = 3 then restoreArchive env s1 else s1
          (s1, true)
  else
    (emit (.print "Syntax: playseq <seqname> (<cd number>)") s, true)

/-- Debugger::cmdPlaySnd - immediate; stops the mixer and streams a sound. -/
def cmdPlaySnd (env : Env) (argc : Nat) (argv : Args) (s : S) : S × Bool :=
  if argc = 2 ∨ argc = 3 then
    match (if argc = 3 then loadArchive env (getNumber (argv.getD 2 "")) s else (s, true)) with
    | (s0, false) => (s0, true)
    | (s0, true) =>
      let name :=
        if strContains (argv.getD 1 "") '.' then argv.getD 1 ""
        else (argv.getD 1 "") ++ ".SND"
      if env.hasFile s0.game.mountedVolume name = false then
        (emit (.print ("Cannot find file: " ++ name)) s0, true)
      else
        let s1 := emit .stopMixer s0
        let s1 := emit (.loadSound name) s1
        let s1 := if argc = 3 then restoreArchive env s1 else s1
        (s1, true)
  else
    (emit (.print "Syntax: playsnd <sndname> (<cd number>)") s, true)

/-- The subtitle display loop of cmdPlaySbe (for i < maxTime, i += 25); an
iteration breaks when no event is pending or on a right-click. -/
def sbeLoop (env : Env) (file : String) (maxTime : Nat) : Nat → Nat → S → S
  | 0, _, s => s
  | fuel + 1, i, s =>
    if i < maxTime then
      let s := emit (.clearBg Bg.all) s
      let s := emit (.drawSubtitle file i) s
      let s := emit .askForRedraw s
      let s := emit .redrawScreen s
      match env.sbeEvent i with
      | none => s
      | some true => s
      | some false => sbeLoop env file maxTime fuel (i + 25) (emit (.delayMillis 500) s)
    else s

/-- Debugger::cmdPlaySbe - deferred; plays subtitles. -/
def cmdPlaySbe (env : Env) (argc : Nat) (argv : Args) (s : S) : S × Bool :=
  if argc = 2 ∨ argc = 3 then
    match (if argc = 3 then loadArchive env (getNumber (argv.getD 2 "")) s else (s, true)) with
    | (s0, false) => (s0, true)
    | (s0, true) =>
      let filename := (argv.getD 1 "") ++ ".sbe"
      if env.hasFile s0.game.mountedVolume filename = false then
        (emit (.print ("Cannot find file: " ++ filename)) s0, true)
      else if hasCommand s0 = false then
        let s1 := { s0 with dbg.command := some CmdId.playsbe }
        let s1 := copyCommand argc argv s1
        cmdExit 0 [] s1
      else
        let s1 :=
          match env.sbeLoad s0.game.mountedVolume filename with
          | some maxTime =>
            let t := emit (.cursorShow false) s0
            let t := sbeLoop env filename maxTime (maxTime + 1) 0 t
            emit (.cursorShow true) t
          | none => s0
        let s1 := if argc = 3 then restoreArchive env s1 else s1
        (resetCommand s1, true)
  else
    (emit (.print "Syntax: playsbe <sbename> (<cd number>)") s, true)

/-- Debugger::cmdPlayNis - deferred; plays a NIS animation by file name or an
animation index.  The executing phase first zeroes _numParams ("make sure
we are not called in a loop"). -/
def cmdPlayNis (env : Env) (argc : Nat) (argv : Args) (s : S) : S × Bool :=
  if argc = 2 ∨ argc = 3 then
    match (if argc = 3 then loadArchive env (getNumber (argv.getD 2 "")) s else (s, true)) with
    | (s0, false) => (s0, true)
    | (s0, true) =>
      let name := argv.getD 1 ""
      if strContains name '.' ∧ env.hasFile s0.game.mountedVolume name = false then
        (emit (.print ("Cannot find file: " ++ name)) s0, true)
      else if hasCommand s0 = false then
        let s1 := { s0 with dbg.command := some CmdId.playnis }
        let s1 := copyCommand argc argv s1
        cmdExit 0 [] s1
      else
        let s1 := { s0 with dbg.numParams := 0 }
        let s1 :=
          if strContains name '.' then
            if env.nisLoad s1.game.mountedVolume name then
              emit (.cursorShow true) (emit (.playNisAnimation name) (emit (.cursorShow false) s1))
            else s1
          else
            emit (.playAnimationEvent (getNumber name)) s1
        let s1 := if argc = 3 then restoreArchive env s1 else s1
        (resetCommand s1, true)
  else
    (emit (.print "Syntax: playnis <nisname.nis or animation index> (<cd number>)") s, true)

/-- Debugger::cmdLoadScene - deferred; draws a scene.  In the executing phase
a null scene prints an error and resets WITHOUT restoring the archive. -/
def cmdLoadScene (env : Env) (argc : Nat) (argv : Args) (s : S) : S × Bool :=
  if argc = 2 ∨ argc = 3 then
    match (if argc = 3 then loadArchive env (getNumber (argv.getD 2 "")) s else (s, true)) with
    | (s0, false) => (s0, true)
    | (s0, true) =>
      let index := toU32 (getNumber (argv.getD 1 ""))
      if 2500 < index then
        (emit (.print "Error: invalid index value (0-2500)") s0, true)
      else if hasCommand s0 = false then
        let s1 := { s0 with dbg.command := some CmdId.loadscene }
        let s1 := copyCommand argc argv s1
        cmdExit 0 [] s1
      else
        let s1 := emit (.clearBg Bg.all) s0
        if env.sceneOk s1.game.sceneDataVolume index = false then
          let s2 := emit (.print ("Cannot load scene " ++ toString index ++ " from CD 1")) s1
          (resetCommand s2, true)
        else
          let s2 := emit (.drawScene index) s1
          let s2 := emit .askForRedraw s2
          let s2 := emit .redrawScreen s2
          let s2 := emit (.delayMillis 500) s2
          let s2 := if argc = 3 then restoreArchive env s2 else s2
          (resetCommand s2, true)
  else
    (emit (.print "Syntax: loadscene <scene index> (<cd number>)") s, true)

/-- Debugger::cmdFight - deferred; mounts the volume owning the chosen
fight's assets, runs the scripted fight, then redraws the saved scene and
restores the chapter-default archive on both the won and the lost branch. -/
def cmdFight (env : Env) (argc : Nat) (argv : Args) (s : S) : S × Bool :=
  if argc = 2 then
    let t := getNumber (argv.getD 1 "")
    if t = kFightMilos ∨ t = kFightAnna ∨ t = kFightIvo ∨ t = kFightSalko ∨ t = kFightVesna then
      let index : Nat :=
        if t = kFightMilos then kArchiveCd1
        else if t = kFightAnna then kArchiveCd2
        else kArchiveCd3
      match loadArchive env (Int.ofNat index) s with
      | (s0, false) =>
        (emit (.print ("Error: failed to load archive " ++ toString index)) s0, true)
      | (s0, true) =>
      if hasCommand s0 = false then
        let s1 := { s0 with dbg.command := some CmdId.fight }
        (copyCommand argc argv s1, false)
      else
        -- make sure we are not called in a loop
        let s1 := { s0 with dbg.numParams := 0 }
        let s1 := emit (.clearBg Bg.all) s1
        let s1 := emit .askForRedraw s1
        let s1 := emit .redrawScreen s1
        let lastScene := s1.game.scene
        let s1 := emit (.fightSetup t) s1
        let s1 := { s1 with game.scene := env.fightScene t s1.game.scene }
        let s1 := emit (.print (if env.fightLost t then "Lost fight!" else "Won fight!")) s1
        let s1 := emit (.delayMillis 1000) s1
        let s1 := restoreArchive env s1
        let s1 := emit .stopAllSound s1
        let s1 := emit (.clearBg Bg.all) s1
        let s1 := emit (.drawScene lastScene) s1
        let s1 := emit .askForRedraw s1
        let s1 := emit .redrawScreen s1
        (resetCommand s1, true)
    else
      (emit (.print "Syntax: fight <id> (id=2001-2005)") s, true)
  else
    (emit (.print "Syntax: fight <id> (id=2001-2005)") s, true)

/-- One polled event inside the beetle sub-loop.  Escape stops the game; a
button-up updates the logic coordinates and stops the game when the
beetle is caught; every iteration ends with delayMillis(10). -/
def beetleEventStep (acc : S × Bool) (ev : BeetleEvent) : S × Bool :=
  match ev with
  | .keyEscape => (emit (.delayMillis 10) acc.1, false)
  | .keyOther => (emit (.delayMillis 10) acc.1, acc.2)
  | .mouseMove h => (emit (.delayMillis 10) (emit (.cursorStyle h) acc.1), acc.2)
  | .buttonUp x y c =>
    let s := { acc.1 with game.coordX := x, game.coordY := y }
    (emit (.delayMillis 10) s, if c then false else acc.2)
  | .otherEvent => (emit (.delayMillis 10) acc.1, acc.2)

/-- The while-playgame loop of cmdBeetle: each outer iteration updates the
beetle, redraws and drains one batch of events.  Returns the state and
whether the loop exited (false when the event source ran out while the
game was still being played, in which case the real code blocks forever). -/
def beetleOuter : List (List BeetleEvent) → S → S × Bool
  | [], s => (s, false)
  | batch :: rest, s =>
    let s := emit .beetleUpdate s
    let s := emit .askForRedraw s
    let s := emit .redrawScreen s
    match batch.foldl beetleEventStep (s, true) with
    | (s1, true) => beetleOuter rest s1
    | (s1, false) => (s1, true)

/-- Debugger::cmdBeetle - deferred; stages the beetle mini-game (chapter 2,
beetle item at location 3), runs the interactive sub-loop, then restores
the captured chapter and item location, the chapter-default archive, and
redraws the previously active scene. -/
def cmdBeetle (env : Env) (argc : Nat) (argv : Args) (s : S) : S × Bool :=
  if argc = 1 then
    match loadArchive env (Int.ofNat kArchiveCd2) s with
    | (s0, false) =>
      (emit (.print "Error: failed to load archive 2") s0, true)
    | (s0, true) =>
    if hasCommand s0 = false then
      let s1 := { s0 with dbg.command := some CmdId.beetle }
      (copyCommand argc argv s1, false)
    else
      let s1 := emit (.clearBg Bg.all) s0
      let s1 := emit .askForRedraw s1
      let s1 := emit .redrawScreen s1
      -- save current state
      let previousScene := s1.game.scene
      let previousLocation := s1.game.beetleLocation
      let previousChapter := s1.game.chapter
      -- setup scene & inventory
      let s1 := { s1 with game.chapter := kChapter2, game.beetleLocation := kObjectLocation3 }
      let s1 := emit .askForRedraw s1
      let s1 := emit .redrawScreen s1
      -- play the game
      match beetleOuter env.beetleEvents s1 with
      | (s2, false) =>
        ({ s2 with game.hung := true }, true)
      | (s2, true) =>
        let s2 := emit (.delayMillis 1000) s2
        -- restore state
        let s2 := { s2 with game.chapter := previousChapter,
                            game.beetleLocation := previousLocation }
        let s2 := restoreArchive env s2
        let s2 := emit .stopAllSound s2
        let s2 := emit (.clearBg Bg.all) s2
        let s2 := emit (.drawScene previousScene) s2
        let s2 := emit .askForRedraw s2
        let s2 := emit .redrawScreen s2
        (resetCommand s2, true)
  else
    (emit (.print "Syntax: beetle") s, true)

/-- Debugger::cmdTimeDelta - immediate; validates 1-500 and sets timeDelta. -/
def cmdTimeDelta (_env : Env) (argc : Nat) (argv : Args) (s : S) : S × Bool :=
  if argc = 2 then
    let delta := getNumber (argv.getD 1 "")
    if delta ≤ 0 ∨ delta > 500 then
      (emit (.print "Syntax: delta <time delta> (delta=1-500)") s, true)
    else
      ({ s with game.timeDelta := delta.toNat }, true)
  else
    (emit (.print "Syntax: delta <time delta> (delta=1-500)") s, true)

/-- Debugger::cmdTime - immediate; converts a time value for printing (the
conversion itself is external State::getHourMinutes). -/
def cmdTime (_env : Env) (argc : Nat) (argv : Args) (s : S) : S × Bool :=
  if argc = 2 then
    let t := getNumber (argv.getD 1 "")
    if t < 0 then
      (emit (.print "Syntax: time <time to convert> (time=0-INT_MAX)") s, true)
    else
      (emit (.printTime t) s, true)
  else
    (emit (.print "Syntax: time <time to convert> (time=0-INT_MAX)") s, true)

/-- Debugger::cmdShow - immediate; dumps one of the game data tables (the
table contents are external toString calls). -/
def cmdShow (_env : Env) (argc : Nat) (argv : Args) (s : S) : S × Bool :=
  if argc = 2 then
    let name := argv.getD 1 ""
    if name = "state" ∨ name = "st" then (emit (.printDump "Game state") s, true)
    else if name = "progress" ∨ name = "pr" then (emit (.printDump "Progress") s, true)
    else if name = "flags" ∨ name = "fl" then (emit (.printDump "Flags") s, true)
    else if name = "inventory" ∨ name = "inv" then (emit (.printDump "Inventory") s, true)
    else if name = "objects" ∨ name = "obj" then (emit (.printDump "Objects") s, true)
    else if name = "savepoints" ∨ name = "pt" then (emit (.printDump "SavePoints") s, true)
    else if name = "scene" ∨ name = "sc" then (emit (.printDump "Current scene") s, true)
    else (emit (.print "Syntax: state <option>") s, true)
  else
    (emit (.print "Syntax: state <option>") s, true)

/-- Debugger::cmdEntity - immediate; dumps entity data (external toString). -/
def cmdEntity (_env : Env) (argc : Nat) (argv : Args) (s : S) : S × Bool :=
  if argc = 2 then
    let index := toU32 (getNumber (argv.getD 1 ""))
    if 39 < index then
      (emit .printEntityList (emit (.print "Syntax: entity <index>") s), true)
    else
      (emit (.printEntityDump index) s, true)
  else
    (emit .printEntityList (emit (.print "Syntax: entity <index>") s), true)

/-- Debugger::cmdSwitchChapter - deferred; validates 2-6, and in the
executing phase sets the current chapter to id-1 and calls
Logic::switchChapter (external; the chapter it leaves is an oracle). -/
def cmdSwitchChapter (env : Env) (argc : Nat) (argv : Args) (s : S) : S × Bool :=
  if argc = 2 then
    let id := getNumber (argv.getD 1 "")
    if id ≤ 1 ∨ id > 6 then
      (emit (.print "Syntax: chapter <id> (id=2-6)") s, true)
    else if hasCommand s = false then
      let s1 := { s with dbg.command := some CmdId.chapter }
      (copyCommand argc argv s1, false)
    else
      let s1 := { s with game.chapter := (id - 1).toNat }
      let s1 := emit (.switchChapter s1.game.chapter) s1
      let s1 := { s1 with game.chapter := env.chapterAfterSwitch s1.game.chapter }
      (resetCommand s1, true)
  else
    (emit (.print "Syntax: chapter <id> (id=2-6)") s, true)

/-- Debugger::cmdClear - immediate; clears all drawing surfaces. -/
def cmdClear (_env : Env) (argc : Nat) (_argv : Args) (s : S) : S × Bool :=
  if argc = 1 then
    (emit .redrawScreen (emit .askForRedraw (emit (.clearBg Bg.all) s)), true)
  else
    (emit (.print "Syntax: clear - clear the screen") s, true)

/-- Run a command handler by id (the value side of the registry). -/
def runCmd : CmdId → Env → Nat → Args → S → S × Bool
  | .help, env, argc, argv, s => cmdHelp env argc argv s
  | .ls, env, argc, argv, s => cmdListFiles env argc argv s
  | .dump, env, argc, argv, s => cmdDumpFiles env argc argv s
  | .showframe, env, argc, argv, s => cmdShowFrame env argc argv s
  | .showbg, env, argc, argv, s => cmdShowBg env argc argv s
  | .playseq, env, argc, argv, s => cmdPlaySeq env argc argv s
  | .playsnd, env, argc, argv, s => cmdPlaySnd env argc argv s
  | .playsbe, env, argc, argv, s => cmdPlaySbe env argc argv s
  | .playnis, env, argc, argv, s => cmdPlayNis env argc argv s
  | .loadscene, env, argc, argv, s => cmdLoadScene env argc argv s
  | .fight, env, argc, argv, s => cmdFight env argc argv s
  | .beetle, env, argc, argv, s => cmdBeetle env argc argv s
  | .delta, env, argc, argv, s => cmdTimeDelta env argc argv s
  | .time, env, argc, argv, s => cmdTime env argc argv s
  | .showData, env, argc, argv, s => cmdShow env argc argv s
  | .entity, env, argc, argv, s => cmdEntity env argc argv s
  | .chapter, env, argc, argv, s => cmdSwitchChapter env argc argv s
  | .clear, env, argc, argv, s => cmdClear env argc argv s

/-- The name table built by registerCmd in the Debugger constructor. -/
def handlerFor (name : String) : Option CmdId :=
  if name = "help" then some .help
  else if name = "ls" then some .ls
  else if name = "dump" then some .dump
  else if name = "showframe" then some .showframe
  else if name = "showbg" then some .showbg
  else if name = "playseq" then some .playseq
  else if name = "playsnd" then some .playsnd
  else if name = "playsbe" then some .playsbe
  else if name = "playnis" then some .playnis
  else if name = "loadscene" then some .loadscene
  else if name = "fight" then some .fight
  else if name = "beetle" then some .beetle
  else if name = "delta" then some .delta
  else if name = "time" then some .time
  else if name = "show" then some .showData
  else if name = "entity" then some .entity
  else if name = "chapter" then some .chapter
  else if name = "clear" then some .clear
  else none

/-- Modelled from the spec: the console transport's dispatch (gui/console +
gui/debugger.cpp are not in this excerpt).  It tokenizes the input line,
looks the first token up in the registry and invokes the handler with the
full token sequence, argv[0] being the command name; an unknown name only
prints a message. -/
def dispatch (env : Env) (args : Args) (s : S) : S × Bool :=
  match args with
  | [] => (s, true)
  | name :: _ =>
    match handlerFor name with
    | some c => runCmd c env args.length args s
    | none => (emit (.print (name ++ " is not a valid command")) s, true)

/-- Debugger::callCommand - if _command is non-null, re-invoke it with the
stored _numParams and _commandParams. -/
def callCommand (env : Env) (s : S) : S :=
  match s.dbg.command with
  | some c => (runCmd c env s.dbg.numParams (s.dbg.commandParams.getD []) s).1
  | none => s

/-- Modelled from the spec: the per-frame pump of the hosting main loop
(lastexpress.cpp is not in this excerpt).  As the spec and the claims
describe it, the pump is callCommand re-invoking the stored handler in the
executing phase; clearing the slot is the handlers' own responsibility. -/
def pump (env : Env) (s : S) : S :=
  callCommand env s

/-- The state after the Debugger constructor: resetCommand has run, nothing
is mounted beyond the defaults and nothing has been drawn. -/
def initState : S :=
  { game := { mountedVolume := 1, sceneDataVolume := 1, chapter := 1, scene := 0,
              beetleLocation := 0, timeDelta := 0, coordX := 0, coordY := 0, hung := false },
    dbg := { command := none, commandParams := none, numParams := 0, detachRequested := false },
    log := [] }

/-- One step of the scheduler's transition system: either the console
dispatches a tokenized line, or the main loop pumps the stored command. -/
inductive StepKind where
  | dispatchStep (args : Args)
  | pumpStep

/-- Apply one scheduler step. -/
def step (env : Env) : StepKind → S → S
  | .dispatchStep args, s => (dispatch env args s).1
  | .pumpStep, s => pump env s

/-! ### Properties of the pending-command slot and the session fields -/

/-- The pending slot of `t` is byte-for-byte the pending slot of `s`. -/
def slotEq (s t : S) : Prop :=
  t.dbg.command = s.dbg.command ∧ t.dbg.commandParams = s.dbg.commandParams ∧
  t.dbg.numParams = s.dbg.numParams

/-- The pending slot of `t` is empty (what resetCommand leaves behind). -/
def slotCleared (t : S) : Prop :=
  t.dbg.command = none ∧ t.dbg.commandParams = none ∧ t.dbg.numParams = 0

/-- The session fields of the game state (chapter, scene, beetle item
location, time delta, coordinates) are unchanged from `s` to `t`; the
archive mount fields are deliberately not part of this set. -/
def sessionEq (s t : S) : Prop :=
  t.game.chapter = s.game.chapter ∧ t.game.scene = s.game.scene ∧
  t.game.beetleLocation = s.game.beetleLocation ∧ t.game.timeDelta = s.game.timeDelta ∧
  t.game.coordX = s.game.coordX ∧ t.game.coordY = s.game.coordY ∧
  t.game.hung = s.game.hung

/-- `t` is `s` after handler `c` stored itself with the given arguments:
slot filled with `c` and an owned copy of argv, console exit requested,
nothing printed or drawn, session fields untouched. -/
def storedSelf (c : CmdId) (argc : Nat) (argv : Args) (s t : S) : Prop :=
  t.dbg.command = some c ∧ t.dbg.commandParams = some (argv.take argc) ∧
  t.dbg.numParams = argc ∧ t.dbg.detachRequested = true ∧
  t.log = s.log ∧ sessionEq s t

/-- Every run of a handler leaves the pending slot untouched, clears it, or
(only from an empty slot) stores the handler itself. -/
def slotOutcome (c : CmdId) (argc : Nat) (argv : Args) (s t : S) : Prop :=
  slotEq s t ∨ slotCleared t ∨ (hasCommand s = false ∧ storedSelf c argc argv s t)

@[simp] theorem emit_dbg (e : Effect) (s : S) : (emit e s).dbg = s.dbg := rfl

@[simp] theorem emit_game (e : Effect) (s : S) : (emit e s).game = s.game := rfl

@[simp] theorem emit_log (e : Effect) (s : S) : (emit e s).log = s.log ++ [e] := rfl

@[simp] theorem emits_dbg (es : List Effect) (s : S) : (emits es s).dbg = s.dbg := rfl

@[simp] theorem emits_game (es : List Effect) (s : S) : (emits es s).game = s.game := rfl

@[simp] theorem emits_log (es : List Effect) (s : S) : (emits es s).log = s.log ++ es := rfl

@[simp] theorem resetCommand_command (s : S) : (resetCommand s).dbg.command = none := rfl

@[simp] theorem resetCommand_commandParams (s : S) :
    (resetCommand s).dbg.commandParams = none := rfl

@[simp] theorem resetCommand_numParams (s : S) : (resetCommand s).dbg.numParams = 0 := rfl

@[simp] theorem resetCommand_detach (s : S) :
    (resetCommand s).dbg.detachRequested = s.dbg.detachRequested := rfl

@[simp] theorem resetCommand_game (s : S) : (resetCommand s).game = s.game := rfl

@[simp] theorem resetCommand_log (s : S) : (resetCommand s).log = s.log := rfl

@[simp] theorem copyCommand_command (argc : Nat) (argv : Args) (s : S) :
    (copyCommand argc argv s).dbg.command = s.dbg.command := rfl

@[simp] theorem copyCommand_commandParams (argc : Nat) (argv : Args) (s : S) :
    (copyCommand argc argv s).dbg.commandParams = some (argv.take argc) := rfl

@[simp] theorem copyCommand_numParams (argc : Nat) (argv : Args) (s : S) :
    (copyCommand argc argv s).dbg.numParams = argc := rfl

@[simp] theorem copyCommand_detach (argc : Nat) (argv : Args) (s : S) :
    (copyCommand argc argv s).dbg.detachRequested = true := rfl

@[simp] theorem copyCommand_game (argc : Nat) (argv : Args) (s : S) :
    (copyCommand argc argv s).game = s.game := rfl

@[simp] theorem copyCommand_log (argc : Nat) (argv : Args) (s : S) :
    (copyCommand argc argv s).log = s.log := rfl

@[simp] theorem cmdExit_fst_command (a : Nat) (v : Args) (s : S) :
    (cmdExit a v s).1.dbg.command = s.dbg.command := rfl

@[simp] theorem cmdExit_fst_commandParams (a : Nat) (v : Args) (s : S) :
    (cmdExit a v s).1.dbg.commandParams = s.dbg.commandParams := rfl

@[simp] theorem cmdExit_fst_numParams (a : Nat) (v : Args) (s : S) :
    (cmdExit a v s).1.dbg.numParams = s.dbg.numParams := rfl

@[simp] theorem cmdExit_fst_detach (a : Nat) (v : Args) (s : S) :
    (cmdExit a v s).1.dbg.detachRequested = true := rfl

@[simp] theorem cmdExit_fst_game (a : Nat) (v : Args) (s : S) :
    (cmdExit a v s).1.game = s.game := rfl

@[simp] theorem cmdExit_fst_log (a : Nat) (v : Args) (s : S) :
    (cmdExit a v s).1.log = s.log := rfl

@[simp] theorem loadArchive_fst_dbg (env : Env) (i : Int) (s : S) :
    (loadArchive env i s).1.dbg = s.dbg := by
  unfold loadArchive; split
  · rfl
  · split <;> rfl

@[simp] theorem loadArchive_fst_chapter (env : Env) (i : Int) (s : S) :
    (loadArchive env i s).1.game.chapter = s.game.chapter := by
  unfold loadArchive; split
  · rfl
  · split <;> rfl

@[simp] theorem loadArchive_fst_scene (env : Env) (i : Int) (s : S) :
    (loadArchive env i s).1.game.scene = s.game.scene := by
  unfold loadArchive; split
  · rfl
  · split <;> rfl

@[simp] theorem loadArchive_fst_beetleLocation (env : Env) (i : Int) (s : S) :
    (loadArchive env i s).1.game.beetleLocation = s.game.beetleLocation := by
  unfold loadArchive; split
  · rfl
  · split <;> rfl

@[simp] theorem loadArchive_fst_timeDelta (env : Env) (i : Int) (s : S) :
    (loadArchive env i s).1.game.timeDelta = s.game.timeDelta := by
  unfold loadArchive; split
  · rfl
  · split <;> rfl

@[simp] theorem loadArchive_fst_coordX (env : Env) (i : Int) (s : S) :
    (loadArchive env i s).1.game.coordX = s.game.coordX := by
  unfold loadArchive; split
  · rfl
  · split <;> rfl

@[simp] theorem loadArchive_fst_coordY (env : Env) (i : Int) (s : S) :
    (loadArchive env i s).1.game.coordY = s.game.coordY := by
  unfold loadArchive; split
  · rfl
  · split <;> rfl

@[simp] theorem loadArchive_fst_hung (env : Env) (i : Int) (s : S) :
    (loadArchive env i s).1.game.hung = s.game.hung := by
  unfold loadArchive; split
  · rfl
  · split <;> rfl

theorem loadArchive_log_of_snd (env : Env) (i : Int) (s : S)
    (h : (loadArchive env i s).2 = true) : (loadArchive env i s).1.log = s.log := by
  by_cases h1 : i < 1 ∨ i > 3
  · rw [loadArchive, if_pos h1] at h; simp at h
  · by_cases h2 : env.canLoad i.toNat = true
    · rw [loadArchive, if_neg h1, if_pos h2]
    · rw [loadArchive, if_neg h1, if_neg h2] at h; simp at h

theorem loadArchive_mounted_of_snd (env : Env) (i : Int) (s : S)
    (h : (loadArchive env i s).2 = true) :
    (loadArchive env i s).1.game.mountedVolume = i.toNat := by
  by_cases h1 : i < 1 ∨ i > 3
  · rw [loadArchive, if_pos h1] at h; simp at h
  · by_cases h2 : env.canLoad i.toNat = true
    · rw [loadArchive, if_neg h1, if_pos h2]
    · rw [loadArchive, if_neg h1, if_neg h2] at h; simp at h

@[simp] theorem restoreArchive_dbg (env : Env) (s : S) :
    (restoreArchive env s).dbg = s.dbg := by
  by_cases h : env.canLoad (defaultVolumeForChapter s.game.chapter) = true <;>
    simp [restoreArchive, h]

@[simp] theorem restoreArchive_log (env : Env) (s : S) :
    (restoreArchive env s).log = s.log := by
  by_cases h : env.canLoad (defaultVolumeForChapter s.game.chapter) = true <;>
    simp [restoreArchive, h]

@[simp] theorem restoreArchive_chapter (env : Env) (s : S) :
    (restoreArchive env s).game.chapter = s.game.chapter := by
  by_cases h : env.canLoad (defaultVolumeForChapter s.game.chapter) = true <;>
    simp [restoreArchive, h]

@[simp] theorem restoreArchive_scene (env : Env) (s : S) :
    (restoreArchive env s).game.scene = s.game.scene := by
  by_cases h : env.canLoad (defaultVolumeForChapter s.game.chapter) = true <;>
    simp [restoreArchive, h]

@[simp] theorem restoreArchive_beetleLocation (env : Env) (s : S) :
    (restoreArchive env s).game.beetleLocation = s.game.beetleLocation := by
  by_cases h : env.canLoad (defaultVolumeForChapter s.game.chapter) = true <;>
    simp [restoreArchive, h]

@[simp] theorem restoreArchive_timeDelta (env : Env) (s : S) :
    (restoreArchive env s).game.timeDelta = s.game.timeDelta := by
  by_cases h : env.canLoad (defaultVolumeForChapter s.game.chapter) = true <;>
    simp [restoreArchive, h]

@[simp] theorem restoreArchive_coordX (env : Env) (s : S) :
    (restoreArchive env s).game.coordX = s.game.coordX := by
  by_cases h : env.canLoad (defaultVolumeForChapter s.game.chapter) = true <;>
    simp [restoreArchive, h]

@[simp] theorem restoreArchive_coordY (env : Env) (s : S) :
    (restoreArchive env s).game.coordY = s.game.coordY := by
  by_cases h : env.canLoad (defaultVolumeForChapter s.game.chapter) = true <;>
    simp [restoreArchive, h]

@[simp] theorem restoreArchive_hung (env : Env) (s : S) :
    (restoreArchive env s).game.hung = s.game.hung := by
  by_cases h : env.canLoad (defaultVolumeForChapter s.game.chapter) = true <;>
    simp [restoreArchive, h]

@[simp] theorem restoreArchive_sceneDataVolume (env : Env) (s : S) :
    (restoreArchive env s).game.sceneDataVolume = defaultVolumeForChapter s.game.chapter := by
  by_cases h : env.canLoad (defaultVolumeForChapter s.game.chapter) = true <;>
    simp [restoreArchive, h]

theorem restoreArchive_mounted (env : Env) (s : S)
    (h : env.canLoad (defaultVolumeForChapter s.game.chapter) = true) :
    (restoreArchive env s).game.mountedVolume = defaultVolumeForChapter s.game.chapter := by
  simp [restoreArchive, h]

@[simp] theorem seqFrames_dbg (env : Env) (file : String) :
    ∀ (count i : Nat) (s : S), (seqFrames env file count i s).dbg = s.dbg := by
  intro count
  induction count with
  | zero => intro i s; rfl
  | succ n ih =>
    intro i s
    unfold seqFrames
    split
    · rfl
    · split
      · rfl
      · rw [ih]; rfl

@[simp] theorem seqFrames_game (env : Env) (file : String) :
    ∀ (count i : Nat) (s : S), (seqFrames env file count i s).game = s.game := by
  intro count
  induction count with
  | zero => intro i s; rfl
  | succ n ih =>
    intro i s
    unfold seqFrames
    split
    · rfl
    · split
      · rfl
      · rw [ih]; rfl

@[simp] theorem sbeLoop_dbg (env : Env) (file : String) (maxTime : Nat) :
    ∀ (fuel i : Nat) (s : S), (sbeLoop env file maxTime fuel i s).dbg = s.dbg := by
  intro fuel
  induction fuel with
  | zero => intro i s; rfl
  | succ n ih =>
    intro i s
    unfold sbeLoop
    split
    · split
      · rfl
      · rfl
      · rw [ih]; rfl
    · rfl

@[simp] theorem sbeLoop_game (env : Env) (file : String) (maxTime : Nat) :
    ∀ (fuel i : Nat) (s : S), (sbeLoop env file maxTime fuel i s).game = s.game := by
  intro fuel
  induction fuel with
  | zero => intro i s; rfl
  | succ n ih =>
    intro i s
    unfold sbeLoop
    split
    · split
      · rfl
      · rfl
      · rw [ih]; rfl
    · rfl

/-- What the beetle sub-loop can never change: the slot, the chapter, the
scene, the item location, the time delta, the hang marker and the mounts. -/
def beetlePreserved (a b : S) : Prop :=
  b.dbg = a.dbg ∧ b.game.chapter = a.game.chapter ∧ b.game.scene = a.game.scene ∧
  b.game.beetleLocation = a.game.beetleLocation ∧ b.game.timeDelta = a.game.timeDelta ∧
  b.game.hung = a.game.hung ∧ b.game.mountedVolume = a.game.mountedVolume ∧
  b.game.sceneDataVolume = a.game.sceneDataVolume

theorem beetlePreserved_refl (a : S) : beetlePreserved a a :=
  ⟨rfl, rfl, rfl, rfl, rfl, rfl, rfl, rfl⟩

theorem beetlePreserved_trans {a b c : S} (h1 : beetlePreserved a b)
    (h2 : beetlePreserved b c) : beetlePreserved a c := by
  obtain ⟨x1, x2, x3, x4, x5, x6, x7, x8⟩ := h1
  obtain ⟨y1, y2, y3, y4, y5, y6, y7, y8⟩ := h2
  exact ⟨y1.trans x1, y2.trans x2, y3.trans x3, y4.trans x4, y5.trans x5,
         y6.trans x6, y7.trans x7, y8.trans x8⟩

theorem beetleEventStep_preserved (acc : S × Bool) (ev : BeetleEvent) :
    beetlePreserved acc.1 (beetleEventStep acc ev).1 := by
  cases ev <;> exact ⟨rfl, rfl, rfl, rfl, rfl, rfl, rfl, rfl⟩

theorem beetleFold_preserved :
    ∀ (batch : List BeetleEvent) (acc : S × Bool),
      beetlePreserved acc.1 (batch.foldl beetleEventStep acc).1 := by
  intro batch
  induction batch with
  | nil => intro acc; exact beetlePreserved_refl _
  | cons ev rest ih =>
    intro acc
    rw [List.foldl_cons]
    exact beetlePreserved_trans (beetleEventStep_preserved acc ev) (ih _)

theorem beetleOuter_preserved :
    ∀ (batches : List (List BeetleEvent)) (s : S),
      beetlePreserved s (beetleOuter batches s).1 := by
  intro batches
  induction batches with
  | nil => intro s; exact beetlePreserved_refl _
  | cons batch rest ih =>
    intro s
    have hfold := beetleFold_preserved batch
      (emit .redrawScreen (emit .askForRedraw (emit .beetleUpdate s)), true)
    have hpre : beetlePreserved s
        (emit .redrawScreen (emit .askForRedraw (emit .beetleUpdate s))) :=
      ⟨rfl, rfl, rfl, rfl, rfl, rfl, rfl, rfl⟩
    simp only [beetleOuter]
    split
    next s1 heq =>
      rw [heq] at hfold
      exact beetlePreserved_trans (beetlePreserved_trans hpre hfold) (ih _)
    next s1 heq =>
      rw [heq] at hfold
      exact beetlePreserved_trans hpre hfold

theorem beetleOuter_eq_preserved {batches : List (List BeetleEvent)} {s s2 : S} {b : Bool}
    (h : beetleOuter batches s = (s2, b)) : beetlePreserved s s2 := by
  have := beetleOuter_preserved batches s
  rw [h] at this; exact this

/-! ### Per-command analysis of the pending slot -/

theorem slotEq_of_dbg {s t : S} (h : t.dbg = s.dbg) : slotEq s t :=
  ⟨by rw [h], by rw [h], by rw [h]⟩

theorem sessionEq_refl (s : S) : sessionEq s s :=
  ⟨rfl, rfl, rfl, rfl, rfl, rfl, rfl⟩

theorem sessionEq_of_game_eq {s t u : S} (h : t.game = u.game) (h2 : sessionEq s u) :
    sessionEq s t := by
  obtain ⟨a, b, c, d, e, f, g⟩ := h2
  exact ⟨by rw [h]; exact a, by rw [h]; exact b, by rw [h]; exact c, by rw [h]; exact d,
         by rw [h]; exact e, by rw [h]; exact f, by rw [h]; exact g⟩

theorem hasCommand_congr {s t : S} (h : t.dbg = s.dbg) : hasCommand t = hasCommand s := by
  unfold hasCommand; rw [h]

theorem loadArchive_sessionEq (env : Env) (i : Int) (s : S) :
    sessionEq s (loadArchive env i s).1 :=
  ⟨by simp, by simp, by simp, by simp, by simp, by simp, by simp⟩

theorem loadArchive_eq_dbg {env : Env} {i : Int} {s s0 : S} {b : Bool}
    (h : loadArchive env i s = (s0, b)) : s0.dbg = s.dbg := by
  have := loadArchive_fst_dbg env i s
  rw [h] at this; exact this

theorem loadArchive_eq_log {env : Env} {i : Int} {s s0 : S}
    (h : loadArchive env i s = (s0, true)) : s0.log = s.log := by
  have := loadArchive_log_of_snd env i s (by rw [h])
  rw [h] at this; exact this

theorem loadArchive_eq_sessionEq {env : Env} {i : Int} {s s0 : S} {b : Bool}
    (h : loadArchive env i s = (s0, b)) : sessionEq s s0 := by
  have := loadArchive_sessionEq env i s
  rw [h] at this; exact this

theorem loadArchive_eq_mounted {env : Env} {i : Int} {s s0 : S}
    (h : loadArchive env i s = (s0, true)) : s0.game.mountedVolume = i.toNat := by
  have := loadArchive_mounted_of_snd env i s (by rw [h])
  rw [h] at this; exact this

theorem optLoad_eq_dbg {env : Env} {c : Prop} [Decidable c] {i : Int} {s s0 : S} {b : Bool}
    (h : (if c then loadArchive env i s else (s, true)) = (s0, b)) : s0.dbg = s.dbg := by
  by_cases hc : c
  · rw [if_pos hc] at h; exact loadArchive_eq_dbg h
  · rw [if_neg hc] at h
    have := congrArg Prod.fst h
    simp at this
    rw [← this]

theorem optLoad_eq_log {env : Env} {c : Prop} [Decidable c] {i : Int} {s s0 : S}
    (h : (if c then loadArchive env i s else (s, true)) = (s0, true)) : s0.log = s.log := by
  by_cases hc : c
  · rw [if_pos hc] at h; exact loadArchive_eq_log h
  · rw [if_neg hc] at h
    have := congrArg Prod.fst h
    simp at this
    rw [← this]

theorem optLoad_eq_sessionEq {env : Env} {c : Prop} [Decidable c] {i : Int} {s s0 : S} {b : Bool}
    (h : (if c then loadArchive env i s else (s, true)) = (s0, b)) : sessionEq s s0 := by
  by_cases hc : c
  · rw [if_pos hc] at h; exact loadArchive_eq_sessionEq h
  · rw [if_neg hc] at h
    have := congrArg Prod.fst h
    simp at this
    rw [← this]
    exact sessionEq_refl s

theorem cmdShowFrame_slot (env : Env) (argc : Nat) (argv : Args) (s : S) :
    slotOutcome .showframe argc argv s (cmdShowFrame env argc argv s).1 := by
  simp only [cmdShowFrame]
  split
  · split
    next s0 heq => exact Or.inl (slotEq_of_dbg (by simp [optLoad_eq_dbg heq]))
    next s0 heq =>
      have hdbg := optLoad_eq_dbg heq
      have hlog := optLoad_eq_log heq
      have hsess := optLoad_eq_sessionEq heq
      split
      next hfile => exact Or.inl (slotEq_of_dbg (by simp [hdbg]))
      next hfile =>
        split
        next hcmd =>
          have hs : hasCommand s = false := by rw [← hasCommand_congr hdbg]; exact hcmd
          refine Or.inr (Or.inr ⟨hs, by simp, by simp, by simp, by simp,
            by simp [hlog], ?_⟩)
          exact sessionEq_of_game_eq (by simp) hsess
        next hcmd =>
          split
          · split
            next hframe => exact Or.inr (Or.inl ⟨by simp, by simp, by simp⟩)
            next hframe =>
              refine Or.inr (Or.inl ⟨?_, ?_, ?_⟩) <;> (split <;> simp)
          · refine Or.inr (Or.inl ⟨?_, ?_, ?_⟩) <;> (split <;> simp)
  · exact Or.inl (slotEq_of_dbg (by simp))

theorem cmdShowBg_slot (env : Env) (argc : Nat) (argv : Args) (s : S) :
    slotOutcome .showbg argc argv s (cmdShowBg env argc argv s).1 := by
  simp only [cmdShowBg]
  split
  · split
    next s0 heq => exact Or.inl (slotEq_of_dbg (by simp [optLoad_eq_dbg heq]))
    next s0 heq =>
      have hdbg := optLoad_eq_dbg heq
      have hlog := optLoad_eq_log heq
      have hsess := optLoad_eq_sessionEq heq
      split
      next hfile => exact Or.inl (slotEq_of_dbg (by simp [hdbg]))
      next hfile =>
        split
        next hcmd =>
          have hs : hasCommand s = false := by rw [← hasCommand_congr hdbg]; exact hcmd
          refine Or.inr (Or.inr ⟨hs, by simp, by simp, by simp, by simp,
            by simp [hlog], ?_⟩)
          exact sessionEq_of_game_eq (by simp) hsess
        next hcmd => exact Or.inr (Or.inl ⟨by simp, by simp, by simp⟩)
  · exact Or.inl (slotEq_of_dbg (by simp))

theorem cmdPlaySeq_slot (env : Env) (argc : Nat) (argv : Args) (s : S) :
    slotOutcome .playseq argc argv s (cmdPlaySeq env argc argv s).1 := by
  simp only [cmdPlaySeq]
  split
  · split
    next s0 heq => exact Or.inl (slotEq_of_dbg (by simp [optLoad_eq_dbg heq]))
    next s0 heq =>
      have hdbg := optLoad_eq_dbg heq
      have hlog := optLoad_eq_log heq
      have hsess := optLoad_eq_sessionEq heq
      split
      next hfile => exact Or.inl (slotEq_of_dbg (by simp [hdbg]))
      next hfile =>
        split
        next hcmd =>
          have hs : hasCommand s = false := by rw [← hasCommand_congr hdbg]; exact hcmd
          refine Or.inr (Or.inr ⟨hs, by simp, by simp, by simp, by simp,
            by simp [hlog], ?_⟩)
          exact sessionEq_of_game_eq (by simp) hsess
        next hcmd =>
          split
          · refine Or.inr (Or.inl ⟨?_, ?_, ?_⟩) <;> (split <;> simp)
          · exact Or.inl (slotEq_of_dbg hdbg)
          · refine Or.inr (Or.inl ⟨?_, ?_, ?_⟩) <;> (split <;> simp)
  · exact Or.inl (slotEq_of_dbg (by simp))

theorem cmdPlaySbe_slot (env : Env) (argc : Nat) (argv : Args) (s : S) :
    slotOutcome .playsbe argc argv s (cmdPlaySbe env argc argv s).1 := by
  simp only [cmdPlaySbe]
  split
  · split
    next s0 heq => exact Or.inl (slotEq_of_dbg (by simp [optLoad_eq_dbg heq]))
    next s0 heq =>
      have hdbg := optLoad_eq_dbg heq
      have hlog := optLoad_eq_log heq
      have hsess := optLoad_eq_sessionEq heq
      split
      next hfile => exact Or.inl (slotEq_of_dbg (by simp [hdbg]))
      next hfile =>
        split
        next hcmd =>
          have hs : hasCommand s = false := by rw [← hasCommand_congr hdbg]; exact hcmd
          refine Or.inr (Or.inr ⟨hs, by simp, by simp, by simp, by simp,
            by simp [hlog], ?_⟩)
          exact sessionEq_of_game_eq (by simp) hsess
        next hcmd => exact Or.inr (Or.inl ⟨by simp, by simp, by simp⟩)
  · exact Or.inl (slotEq_of_dbg (by simp))

theorem cmdPlayNis_slot (env : Env) (argc : Nat) (argv : Args) (s : S) :
    slotOutcome .playnis argc argv s (cmdPlayNis env argc argv s).1 := by
  simp only [cmdPlayNis]
  split
  · split
    next s0 heq => exact Or.inl (slotEq_of_dbg (by simp [optLoad_eq_dbg heq]))
    next s0 heq =>
      have hdbg := optLoad_eq_dbg heq
      have hlog := optLoad_eq_log heq
      have hsess := optLoad_eq_sessionEq heq
      split
      next hfile => exact Or.inl (slotEq_of_dbg (by simp [hdbg]))
      next hfile =>
        split
        next hcmd =>
          have hs : hasCommand s = false := by rw [← hasCommand_congr hdbg]; exact hcmd
          refine Or.inr (Or.inr ⟨hs, by simp, by simp, by simp, by simp,
            by simp [hlog], ?_⟩)
          exact sessionEq_of_game_eq (by simp) hsess
        next hcmd => exact Or.inr (Or.inl ⟨by simp, by simp, by simp⟩)
  · exact Or.inl (slotEq_of_dbg (by simp))

theorem cmdLoadScene_slot (env : Env) (argc : Nat) (argv : Args) (s : S) :
    slotOutcome .loadscene argc argv s (cmdLoadScene env argc argv s).1 := by
  simp only [cmdLoadScene]
  split
  · split
    next s0 heq => exact Or.inl (slotEq_of_dbg (by simp [optLoad_eq_dbg heq]))
    next s0 heq =>
      have hdbg := optLoad_eq_dbg heq
      have hlog := optLoad_eq_log heq
      have hsess := optLoad_eq_sessionEq heq
      split
      next hidx => exact Or.inl (slotEq_of_dbg (by simp [hdbg]))
      next hidx =>
        split
        next hcmd =>
          have hs : hasCommand s = false := by rw [← hasCommand_congr hdbg]; exact hcmd
          refine Or.inr (Or.inr ⟨hs, by simp, by simp, by simp, by simp,
            by simp [hlog], ?_⟩)
          exact sessionEq_of_game_eq (by simp) hsess
        next hcmd =>
          split
          · exact Or.inr (Or.inl ⟨by simp, by simp, by simp⟩)
          · exact Or.inr (Or.inl ⟨by simp, by simp, by simp⟩)
  · exact Or.inl (slotEq_of_dbg (by simp))

theorem cmdFight_slot (env : Env) (argc : Nat) (argv : Args) (s : S) :
    slotOutcome .fight argc argv s (cmdFight env argc argv s).1 := by
  simp only [cmdFight]
  split
  · split
    · split
      next s0 heq => exact Or.inl (slotEq_of_dbg (by simp [loadArchive_eq_dbg heq]))
      next s0 heq =>
        have hdbg := loadArchive_eq_dbg heq
        have hlog := loadArchive_eq_log heq
        have hsess := loadArchive_eq_sessionEq heq
        split
        next hcmd =>
          have hs : hasCommand s = false := by rw [← hasCommand_congr hdbg]; exact hcmd
          refine Or.inr (Or.inr ⟨hs, by simp, by simp, by simp, by simp,
            by simp [hlog], ?_⟩)
          exact sessionEq_of_game_eq (by simp) hsess
        next hcmd => exact Or.inr (Or.inl ⟨by simp, by simp, by simp⟩)
    · exact Or.inl (slotEq_of_dbg (by simp))
  · exact Or.inl (slotEq_of_dbg (by simp))

theorem cmdBeetle_slot (env : Env) (argc : Nat) (argv : Args) (s : S) :
    slotOutcome .beetle argc argv s (cmdBeetle env argc argv s).1 := by
  simp only [cmdBeetle]
  split
  · split
    next s0 heq => exact Or.inl (slotEq_of_dbg (by simp [loadArchive_eq_dbg heq]))
    next s0 heq =>
      have hdbg := loadArchive_eq_dbg heq
      have hlog := loadArchive_eq_log heq
      have hsess := loadArchive_eq_sessionEq heq
      split
      next hcmd =>
        have hs : hasCommand s = false := by rw [← hasCommand_congr hdbg]; exact hcmd
        refine Or.inr (Or.inr ⟨hs, by simp, by simp, by simp, by simp,
          by simp [hlog], ?_⟩)
        exact sessionEq_of_game_eq (by simp) hsess
      next hcmd =>
        split
        next s2 heq2 =>
          -- sub-loop still running when events ran out: slot untouched
          exact Or.inl (slotEq_of_dbg
            (by simp [(beetleOuter_eq_preserved heq2).1, hdbg]))
        next s2 heq2 =>
          exact Or.inr (Or.inl ⟨by simp, by simp, by simp⟩)
  · exact Or.inl (slotEq_of_dbg (by simp))

theorem cmdSwitchChapter_slot (env : Env) (argc : Nat) (argv : Args) (s : S) :
    slotOutcome .chapter argc argv s (cmdSwitchChapter env argc argv s).1 := by
  simp only [cmdSwitchChapter]
  split
  · split
    · exact Or.inl (slotEq_of_dbg (by simp))
    · split
      next hcmd =>
        exact Or.inr (Or.inr ⟨hcmd, by simp, by simp, by simp, by simp, by simp,
          sessionEq_of_game_eq (by simp) (sessionEq_refl s)⟩)
      next hcmd => exact Or.inr (Or.inl ⟨by simp, by simp, by simp⟩)
  · exact Or.inl (slotEq_of_dbg (by simp))

theorem cmdHelp_dbg (env : Env) (argc : Nat) (argv : Args) (s : S) :
    (cmdHelp env argc argv s).1.dbg = s.dbg := rfl

theorem cmdListFiles_dbg (env : Env) (argc : Nat) (argv : Args) (s : S) :
    (cmdListFiles env argc argv s).1.dbg = s.dbg := by
  simp only [cmdListFiles]
  split
  · split
    next s0 heq => simp [optLoad_eq_dbg heq]
    next s0 heq =>
      have hdbg := optLoad_eq_dbg heq
      split <;> simp [hdbg]
  · rfl

theorem cmdDumpFiles_dbg (env : Env) (argc : Nat) (argv : Args) (s : S) :
    (cmdDumpFiles env argc argv s).1.dbg = s.dbg := by
  simp only [cmdDumpFiles]
  split
  · split <;> simp
  · rfl

theorem cmdPlaySnd_dbg (env : Env) (argc : Nat) (argv : Args) (s : S) :
    (cmdPlaySnd env argc argv s).1.dbg = s.dbg := by
  simp only [cmdPlaySnd]
  split
  · split
    next s0 heq => simp [optLoad_eq_dbg heq]
    next s0 heq =>
      have hdbg := optLoad_eq_dbg heq
      split
      · split
        · simp [hdbg]
        · split <;> simp [hdbg]
      · split
        · simp [hdbg]
        · split <;> simp [hdbg]
  · rfl

theorem cmdTimeDelta_dbg (env : Env) (argc : Nat) (argv : Args) (s : S) :
    (cmdTimeDelta env argc argv s).1.dbg = s.dbg := by
  simp only [cmdTimeDelta]
  split
  · split <;> rfl
  · rfl

theorem cmdTime_dbg (env : Env) (argc : Nat) (argv : Args) (s : S) :
    (cmdTime env argc argv s).1.dbg = s.dbg := by
  simp only [cmdTime]
  split
  · split <;> rfl
  · rfl

theorem cmdShow_dbg (env : Env) (argc : Nat) (argv : Args) (s : S) :
    (cmdShow env argc argv s).1.dbg = s.dbg := by
  simp only [cmdShow]
  split
  · split
    · rfl
    · split
      · rfl
      · split
        · rfl
        · split
          · rfl
          · split
            · rfl
            · split
              · rfl
              · split <;> rfl
  · rfl

theorem cmdEntity_dbg (env : Env) (argc : Nat) (argv : Args) (s : S) :
    (cmdEntity env argc argv s).1.dbg = s.dbg := by
  simp only [cmdEntity]
  split
  · split <;> rfl
  · rfl

theorem cmdClear_dbg (env : Env) (argc : Nat) (argv : Args) (s : S) :
    (cmdClear env argc argv s).1.dbg = s.dbg := by
  simp only [cmdClear]
  split <;> rfl

/-- Master lemma: every handler invocation leaves the pending slot untouched,
clears it, or (only from an empty slot) stores the handler itself with an
owned copy of argv, requesting console exit and touching neither the trace
nor the session fields. -/
theorem runCmd_slot (c : CmdId) (env : Env) (argc : Nat) (argv : Args) (s : S) :
    slotOutcome c argc argv s (runCmd c env argc argv s).1 := by
  cases c with
  | help => exact Or.inl (slotEq_of_dbg (cmdHelp_dbg env argc argv s))
  | ls => exact Or.inl (slotEq_of_dbg (cmdListFiles_dbg env argc argv s))
  | dump => exact Or.inl (slotEq_of_dbg (cmdDumpFiles_dbg env argc argv s))
  | showframe => exact cmdShowFrame_slot env argc argv s
  | showbg => exact cmdShowBg_slot env argc argv s
  | playseq => exact cmdPlaySeq_slot env argc argv s
  | playsnd => exact Or.inl (slotEq_of_dbg (cmdPlaySnd_dbg env argc argv s))
  | playsbe => exact cmdPlaySbe_slot env argc argv s
  | playnis => exact cmdPlayNis_slot env argc argv s
  | loadscene => exact cmdLoadScene_slot env argc argv s
  | fight => exact cmdFight_slot env argc argv s
  | beetle => exact cmdBeetle_slot env argc argv s
  | delta => exact Or.inl (slotEq_of_dbg (cmdTimeDelta_dbg env argc argv s))
  | time => exact Or.inl (slotEq_of_dbg (cmdTime_dbg env argc argv s))
  | showData => exact Or.inl (slotEq_of_dbg (cmdShow_dbg env argc argv s))
  | entity => exact Or.inl (slotEq_of_dbg (cmdEntity_dbg env argc argv s))
  | chapter => exact cmdSwitchChapter_slot env argc argv s
  | clear => exact Or.inl (slotEq_of_dbg (cmdClear_dbg env argc argv s))

/-! ### Test environments used by the witnesses -/

/-- A test environment in which every external operation succeeds and the
beetle sub-loop's first polled event is the escape key. -/
def envOk : Env :=
  { canLoad := fun _ => true, hasFile := fun _ _ => true,
    seqCount := fun _ _ => some 1, frameOk := fun _ _ _ => true,
    bgOk := fun _ _ => true, sbeLoad := fun _ _ => some 25,
    sbeEvent := fun _ => none, nisLoad := fun _ _ => true,
    rightClick := fun _ => false, sceneOk := fun _ _ => true,
    fightLost := fun _ => false, fightScene := fun _ sc => sc,
    chapterAfterSwitch := fun c => c,
    beetleEvents := [[BeetleEvent.keyEscape]],
    lsNames := fun _ _ => [], dumpStreamsOk := true, isDemo := false }

/-- A test environment whose resource resolver cannot open any volume. -/
def envNoCd : Env :=
  { envOk with canLoad := fun _ => false }

/-! ### The claims -/

/-- C9: loadArchive rejects every volume index outside [1,3] with an
invalid-cd message and returns false without mounting or touching scene
data; for an in-range index it returns false (silently, state unchanged)
when the resolver cannot open the volume, and on success it mounts the
volume, reloads the scene data file for it and returns true. -/
theorem loadArchive_contract (env : Env) (s : S) (i : Int) :
    ((i < 1 ∨ i > 3) →
      loadArchive env i s =
        (emit (.print ("Invalid cd number (was: " ++ toString i ++ ", valid: [1-3])")) s,
         false)) ∧
    (1 ≤ i → i ≤ 3 → env.canLoad i.toNat = false → loadArchive env i s = (s, false)) ∧
    (1 ≤ i → i ≤ 3 → env.canLoad i.toNat = true →
      loadArchive env i s =
        ({ s with game.mountedVolume := i.toNat, game.sceneDataVolume := i.toNat }, true)) := by
  refine ⟨?_, ?_, ?_⟩
  · intro h
    rw [loadArchive, if_pos h]
  · intro h1 h2 h3
    rw [loadArchive, if_neg (by omega), if_neg (by simp [h3])]
  · intro h1 h2 h3
    rw [loadArchive, if_neg (by omega), if_pos h3]

/-- Witness for C9: the three branches of the contract at volume indices 5
(out of range), 2 with a failing resolver, and 2 with a working resolver. -/
theorem loadArchive_contract_witness :
    ((5 : Int) < 1 ∨ (5 : Int) > 3) ∧
    loadArchive envOk 5 initState =
      (emit (.print "Invalid cd number (was: 5, valid: [1-3])") initState, false) ∧
    envNoCd.canLoad (2 : Int).toNat = false ∧
    loadArchive envNoCd 2 initState = (initState, false) ∧
    envOk.canLoad (2 : Int).toNat = true ∧
    loadArchive envOk 2 initState =
      ({ initState with game.mountedVolume := 2, game.sceneDataVolume := 2 }, true) := by
  refine ⟨by decide, ?_, by decide, ?_, by decide, ?_⟩
  · exact (loadArchive_contract envOk initState 5).1 (by decide)
  · exact (loadArchive_contract envNoCd initState 2).2.1 (by decide) (by decide) (by decide)
  · exact (loadArchive_contract envOk initState 2).2.2 (by decide) (by decide) (by decide)

/-- Modelled from the spec: the chapter-to-default-volume mapping in the
spec's own words - chapter 1 to volume 1, chapters 2 and 3 to volume 2,
chapters 4 and 5 to volume 3, any other integer to volume 1. -/
def specDefaultVolumeForChapter (chapter : Nat) : Nat :=
  if chapter = 1 then 1
  else if chapter = 2 ∨ chapter = 3 then 2
  else if chapter = 4 ∨ chapter = 5 then 3
  else 1

/-- C3: the volume selected by restoreArchive is a pure total function of
the current chapter agreeing with the spec's table; restoreArchive
remounts that chapter-derived default and reloads the scene data file for
it, and its result does not depend on which volume was mounted before
(policy-based, not snapshot-based, restore). -/
theorem restoreArchive_policy (env : Env) (s : S) (v w : Nat) :
    (∀ c : Nat, defaultVolumeForChapter c = specDefaultVolumeForChapter c) ∧
    (restoreArchive env s).game.sceneDataVolume = specDefaultVolumeForChapter s.game.chapter ∧
    (env.canLoad (specDefaultVolumeForChapter s.game.chapter) = true →
      (restoreArchive env s).game.mountedVolume =
        specDefaultVolumeForChapter s.game.chapter) ∧
    (env.canLoad (specDefaultVolumeForChapter s.game.chapter) = true →
      restoreArchive env { s with game.mountedVolume := v } =
        restoreArchive env { s with game.mountedVolume := w }) := by
  have htab : ∀ c : Nat, defaultVolumeForChapter c = specDefaultVolumeForChapter c := by
    intro c
    simp only [defaultVolumeForChapter, specDefaultVolumeForChapter, kChapter1, kChapter2,
      kChapter3, kChapter4, kChapter5, kArchiveCd1, kArchiveCd2, kArchiveCd3]
    split_ifs <;> first | rfl | omega
  refine ⟨htab, ?_, ?_, ?_⟩
  · rw [restoreArchive_sceneDataVolume, htab]
  · intro h
    rw [restoreArchive_mounted env s (by rw [htab]; exact h), htab]
  · intro h
    have h' : env.canLoad (defaultVolumeForChapter s.game.chapter) = true := by
      rw [htab]; exact h
    simp [restoreArchive, h']

/-- Witness for C3: with a chapter-3 state whose resolver works, restore
targets volume 2 regardless of whether volume 1 or 3 was mounted. -/
theorem restoreArchive_policy_witness :
    envOk.canLoad (specDefaultVolumeForChapter
      ({ initState with game.chapter := 3 } : S).game.chapter) = true ∧
    restoreArchive envOk
        { { initState with game.chapter := 3 } with game.mountedVolume := 1 } =
      restoreArchive envOk
        { { initState with game.chapter := 3 } with game.mountedVolume := 3 } ∧
    (restoreArchive envOk { initState with game.chapter := 3 }).game.sceneDataVolume = 2 := by
  refine ⟨by decide, ?_, ?_⟩
  · exact (restoreArchive_policy envOk { initState with game.chapter := 3 } 1 3).2.2.2
      (by decide)
  · have h := (restoreArchive_policy envOk { initState with game.chapter := 3 } 1 3).2.1
    rw [h]; decide

/-- C8: the delta command validates its argument against 1-500: any value
outside prints the usage text and leaves the time-scale factor (and
everything else) untouched, any value inside sets timeDelta to it,
immediately, with no deferral and no other effect. -/
theorem timeDelta_validation (env : Env) (s : S) (a : String) :
    dispatch env ["delta", a] s =
      (if getNumber a ≤ 0 ∨ getNumber a > 500 then
        emit (.print "Syntax: delta <time delta> (delta=1-500)") s
       else { s with game.timeDelta := (getNumber a).toNat }, true) := by
  have h : handlerFor "delta" = some CmdId.delta := rfl
  simp only [dispatch, h, runCmd, cmdTimeDelta, List.length_cons, List.length_nil,
    List.getD_cons_succ, List.getD_cons_zero]
  by_cases hd : getNumber a ≤ 0 ∨ getNumber a > 500
  · rw [if_pos (by norm_num), if_pos hd, if_pos hd]
  · rw [if_pos (by norm_num), if_neg hd, if_neg hd]

/-- The allocated argument strings of the slot (length of the owned copy). -/
def allocCount (s : S) : Nat :=
  match s.dbg.commandParams with
  | some l => l.length
  | none => 0

/-- Number of free() calls on non-null pointers a run of resetCommand
performs: one per copied string (the first _numParams entries) plus one
for the array itself when it is non-null; free(nullptr) is a no-op. -/
def resetFreeCount (s : S) : Nat :=
  match s.dbg.commandParams with
  | some _ => s.dbg.numParams + 1
  | none => 0

/-- C10: from any state satisfying the slot representation (the parameter
count equals the number of allocated argument strings), resetCommand
nulls the handler and the argument vector and zeroes the count (so
hasCommand is false), it is idempotent, the first call frees exactly the
allocated strings plus the array, and a second consecutive call performs
no free at all (no double free). -/
theorem resetCommand_idempotent (s : S) (h : s.dbg.numParams = allocCount s) :
    (resetCommand s).dbg.command = none ∧
    (resetCommand s).dbg.commandParams = none ∧
    (resetCommand s).dbg.numParams = 0 ∧
    hasCommand (resetCommand s) = false ∧
    resetCommand (resetCommand s) = resetCommand s ∧
    resetFreeCount s =
      (if s.dbg.commandParams = none then 0 else allocCount s + 1) ∧
    resetFreeCount (resetCommand s) = 0 := by
  refine ⟨rfl, rfl, rfl, rfl, rfl, ?_, rfl⟩
  rcases hp : s.dbg.commandParams with _ | l
  · simp [resetFreeCount, hp]
  · simp only [allocCount, hp] at h
    simp [resetFreeCount, hp, h, allocCount]

/-- A state holding a stored fight command (fixture for the C10 witness). -/
def c10state : S :=
  { initState with
    dbg := { command := some CmdId.fight
             commandParams := some ["fight", "2002"]
             numParams := 2
             detachRequested := true } }

/-- Witness for C10: a pending fight command; resetCommand clears it, twice
over, and the second call frees nothing. -/
theorem resetCommand_idempotent_witness :
    c10state.dbg.numParams = allocCount c10state ∧
    resetCommand (resetCommand c10state) = resetCommand c10state ∧
    resetFreeCount (resetCommand c10state) = 0 := by
  refine ⟨by decide, ?_, ?_⟩
  · exact (resetCommand_idempotent c10state (by decide)).2.2.2.2.1
  · exact (resetCommand_idempotent c10state (by decide)).2.2.2.2.2.2

theorem hasCommand_false_iff {s : S} : hasCommand s = false ↔ s.dbg.numParams = 0 := by
  unfold hasCommand; simp

theorem slotEq_hasCommand {s t : S} (h : slotEq s t) : hasCommand t = hasCommand s := by
  unfold hasCommand; rw [h.2.2]

/-- The invariant of C6 on the pending slot: the handler reference is
non-null exactly when _numParams is non-zero, and likewise for the copied
argument array.  (There is only one slot, so at most one PendingCommand
can exist; slotOutcome shows a store only ever happens from an empty
slot.) -/
def SlotInv (s : S) : Prop :=
  (s.dbg.command ≠ none ↔ s.dbg.numParams ≠ 0) ∧
  (s.dbg.commandParams ≠ none ↔ s.dbg.numParams ≠ 0)

theorem slotInv_of_slotEq {s t : S} (heq : slotEq s t) (h : SlotInv s) : SlotInv t := by
  obtain ⟨h1, h2, h3⟩ := heq
  constructor
  · rw [h1, h3]; exact h.1
  · rw [h2, h3]; exact h.2

theorem slotInv_of_cleared {t : S} (h : slotCleared t) : SlotInv t := by
  obtain ⟨h1, h2, h3⟩ := h
  constructor <;> simp [h1, h2, h3]

/-- C6: the slot invariant (non-null handler iff non-zero parameter count,
for the handler reference and the copied arguments alike) holds initially
and is preserved by every console dispatch and every pump; moreover no
step from a state that already holds a pending command ever stores a
second one - the slot is left exactly as it was or cleared, never
re-filled. -/
theorem pending_slot_invariant :
    SlotInv initState ∧
    (∀ (env : Env) (k : StepKind) (s : S), SlotInv s → SlotInv (step env k s)) ∧
    (∀ (env : Env) (k : StepKind) (s : S), hasCommand s = true →
      slotEq s (step env k s) ∨ slotCleared (step env k s)) := by
  refine ⟨⟨by simp [initState], by simp [initState]⟩, ?_, ?_⟩
  · intro env k s hInv
    cases k with
    | pumpStep =>
      rcases hc : s.dbg.command with _ | c
      · simpa [step, pump, callCommand, hc] using hInv
      · have hnum : s.dbg.numParams ≠ 0 := hInv.1.mp (by simp [hc])
        have hstep : step env .pumpStep s =
            (runCmd c env s.dbg.numParams (s.dbg.commandParams.getD []) s).1 := by
          simp [step, pump, callCommand, hc]
        rcases runCmd_slot c env s.dbg.numParams (s.dbg.commandParams.getD []) s with
          h | h | ⟨hfalse, _⟩
        · rw [hstep]; exact slotInv_of_slotEq h hInv
        · rw [hstep]; exact slotInv_of_cleared h
        · exact absurd (hasCommand_false_iff.mp hfalse) hnum
    | dispatchStep args =>
      cases args with
      | nil => simpa [step, dispatch] using hInv
      | cons name rest =>
        rcases hh : handlerFor name with _ | c
        · have hstep : step env (.dispatchStep (name :: rest)) s =
              emit (.print (name ++ " is not a valid command")) s := by
            simp [step, dispatch, hh]
          rw [hstep]
          exact slotInv_of_slotEq (slotEq_of_dbg (by simp)) hInv
        · have hstep : step env (.dispatchStep (name :: rest)) s =
              (runCmd c env (name :: rest).length (name :: rest) s).1 := by
            simp [step, dispatch, hh]
          rcases runCmd_slot c env (name :: rest).length (name :: rest) s with
            h | h | ⟨_, hst⟩
          · rw [hstep]; exact slotInv_of_slotEq h hInv
          · rw [hstep]; exact slotInv_of_cleared h
          · rw [hstep]
            obtain ⟨hcm, hcp, hnp, _, _, _⟩ := hst
            constructor
            · rw [hcm, hnp]; simp
            · rw [hcp, hnp]; simp
  · intro env k s hpend
    cases k with
    | pumpStep =>
      rcases hc : s.dbg.command with _ | c
      · left
        have hstep : step env .pumpStep s = s := by simp [step, pump, callCommand, hc]
        rw [hstep]; exact ⟨rfl, rfl, rfl⟩
      · have hstep : step env .pumpStep s =
            (runCmd c env s.dbg.numParams (s.dbg.commandParams.getD []) s).1 := by
          simp [step, pump, callCommand, hc]
        rcases runCmd_slot c env s.dbg.numParams (s.dbg.commandParams.getD []) s with
          h | h | ⟨hfalse, _⟩
        · left; rw [hstep]; exact h
        · right; rw [hstep]; exact h
        · rw [hpend] at hfalse; cases hfalse
    | dispatchStep args =>
      cases args with
      | nil =>
        left
        have hstep : step env (.dispatchStep []) s = s := by simp [step, dispatch]
        rw [hstep]; exact ⟨rfl, rfl, rfl⟩
      | cons name rest =>
        rcases hh : handlerFor name with _ | c
        · left
          have hstep : step env (.dispatchStep (name :: rest)) s =
              emit (.print (name ++ " is not a valid command")) s := by
            simp [step, dispatch, hh]
          rw [hstep]; exact slotEq_of_dbg (by simp)
        · have hstep : step env (.dispatchStep (name :: rest)) s =
              (runCmd c env (name :: rest).length (name :: rest) s).1 := by
            simp [step, dispatch, hh]
          rcases runCmd_slot c env (name :: rest).length (name :: rest) s with
            h | h | ⟨hfalse, _⟩
          · left; rw [hstep]; exact h
          · right; rw [hstep]; exact h
          · rw [hpend] at hfalse; cases hfalse

/-- Witness for C6: the invariant holds initially, survives dispatching
beetle from the initial state, and a pump from a pending state leaves the
slot unchanged or cleared. -/
theorem pending_slot_invariant_witness :
    SlotInv initState ∧
    SlotInv (step envOk (.dispatchStep ["beetle"]) initState) ∧
    (slotEq c10state (step envOk .pumpStep c10state) ∨
      slotCleared (step envOk .pumpStep c10state)) := by
  refine ⟨pending_slot_invariant.1, ?_, ?_⟩
  · exact pending_slot_invariant.2.1 envOk (.dispatchStep ["beetle"]) initState
      pending_slot_invariant.1
  · exact pending_slot_invariant.2.2 envOk .pumpStep c10state (by decide)

/-- C1: a dispatch from the console context (no pending command) that ends
with a pending command has exactly stored the dispatched handler with an
owned copy of the full argument vector, requested console exit, printed
and drawn nothing, and left every session field (chapter, scene, beetle
item location, time delta, coordinates) untouched - only the archive
mount may have been switched.  The pump then re-invokes the stored
handler (pump is callCommand); once a pump has cleared the pending
command, a further pump is a no-op, so the visual effect runs exactly
once. -/
theorem deferred_two_phase (env : Env) (args : Args) (s : S) :
    (hasCommand s = false → hasCommand (dispatch env args s).1 = true →
      (dispatch env args s).1.dbg.command = handlerFor (args.headD "") ∧
      (dispatch env args s).1.dbg.commandParams = some args ∧
      (dispatch env args s).1.dbg.numParams = args.length ∧
      (dispatch env args s).1.dbg.detachRequested = true ∧
      (dispatch env args s).1.log = s.log ∧
      sessionEq s (dispatch env args s).1) ∧
    (hasCommand s = true → hasCommand (pump env s) = false →
      pump env (pump env s) = pump env s) := by
  constructor
  · intro h0 h1
    cases args with
    | nil =>
      have hstep : (dispatch env [] s).1 = s := by simp [dispatch]
      rw [hstep] at h1
      rw [h0] at h1; cases h1
    | cons name rest =>
      rcases hh : handlerFor name with _ | c
      · have hstep : (dispatch env (name :: rest) s).1 =
            emit (.print (name ++ " is not a valid command")) s := by
          simp [dispatch, hh]
        rw [hstep] at h1
        have hsame : hasCommand (emit (.print (name ++ " is not a valid command")) s) =
            hasCommand s := hasCommand_congr (by simp)
        rw [hsame, h0] at h1
        cases h1
      · have hstep : (dispatch env (name :: rest) s).1 =
            (runCmd c env (name :: rest).length (name :: rest) s).1 := by
          simp [dispatch, hh]
        rcases runCmd_slot c env (name :: rest).length (name :: rest) s with
          h | h | ⟨_, hst⟩
        · rw [hstep, slotEq_hasCommand h, h0] at h1; cases h1
        · rw [hstep] at h1
          rw [hasCommand_false_iff.mpr h.2.2] at h1; cases h1
        · obtain ⟨hcm, hcp, hnp, hdet, hlog, hsess⟩ := hst
          rw [hstep]
          refine ⟨?_, ?_, hnp, hdet, hlog, hsess⟩
          · rw [hcm]
            simp only [List.headD_cons]
            exact hh.symm
          · rw [hcp, List.take_length]
  · intro h1 h2
    rcases hc : s.dbg.command with _ | c
    · have hstep : pump env s = s := by simp [pump, callCommand, hc]
      rw [hstep] at h2
      rw [h1] at h2; cases h2
    · have hstep : pump env s =
          (runCmd c env s.dbg.numParams (s.dbg.commandParams.getD []) s).1 := by
        simp [pump, callCommand, hc]
      rcases runCmd_slot c env s.dbg.numParams (s.dbg.commandParams.getD []) s with
        h | h | ⟨hfalse, _⟩
      · rw [hstep, slotEq_hasCommand h, h1] at h2; cases h2
      · have hnone : (pump env s).dbg.command = none := by rw [hstep]; exact h.1
        conv_lhs => rw [pump, callCommand, hnone]
      · rw [h1] at hfalse; cases hfalse

/-- The state after dispatching chapter 3 from the idle initial state (C1
witness fixture). -/
def c1state : S := (dispatch envOk ["chapter", "3"] initState).1

/-- Witness for C1: dispatching chapter 3 from the idle initial state
stores the chapter handler, leaves the trace empty, and the second pump
after the executing pump changes nothing. -/
theorem deferred_two_phase_witness :
    hasCommand (dispatch envOk ["chapter", "3"] initState).1 = true ∧
    (dispatch envOk ["chapter", "3"] initState).1.dbg.command = handlerFor "chapter" ∧
    (dispatch envOk ["chapter", "3"] initState).1.log = initState.log ∧
    pump envOk (pump envOk c1state) = pump envOk c1state := by
  have h := (deferred_two_phase envOk ["chapter", "3"] initState).1 (by decide) (by decide)
  refine ⟨by decide, h.1, h.2.2.2.2.1, ?_⟩
  exact (deferred_two_phase envOk ["chapter", "3"] c1state).2 (by decide) (by decide)

/-- The environment of the C2 failing input: every file exists, but
EMPTY.seq loads as a sequence with zero frames. -/
def envEmptySeq : Env := { envOk with seqCount := fun _ _ => some 0 }

/-- The state after the console dispatched playseq EMPTY: the command is
stored and the console was asked to exit. -/
def c2state : S := (dispatch envEmptySeq ["playseq", "EMPTY"] initState).1

/-- C2 (evaluation at the failing input): with playseq EMPTY pending and
EMPTY.seq loading with zero frames, the pump returns with the slot still
full - hasCommand() stays true and the handler reference and the copied
arguments are still set, contradicting the unconditional-clearing the
spec promises for the pump. -/
theorem pump_leaves_playseq_pending :
    hasCommand c2state = true ∧
    c2state.dbg.command = some CmdId.playseq ∧
    hasCommand (pump envEmptySeq c2state) = true ∧
    (pump envEmptySeq c2state).dbg.command = some CmdId.playseq ∧
    (pump envEmptySeq c2state).dbg.commandParams = some ["playseq", "EMPTY"] := by
  refine ⟨by decide, by decide, by decide, by decide, by decide⟩

/-- C7: the chapter command rejects every id outside 2-6 (in particular 1
and 7) with the usage message and no other change at all; chapter 3 from
the console context is accepted and defers (stores itself, requests
console exit, returns false); and the executing phase sets the current
chapter to id-1, then runs the chapter-transition logic (observed as the
switchChapter effect carrying the chapter it is entered with), and clears
the slot. -/
theorem chapter_command (env : Env) (s : S) (a : String) :
    ((getNumber a ≤ 1 ∨ getNumber a > 6) →
      dispatch env ["chapter", a] s =
        (emit (.print "Syntax: chapter <id> (id=2-6)") s, true)) ∧
    (getNumber a = 3 → hasCommand s = false →
      hasCommand (dispatch env ["chapter", a] s).1 = true ∧
      (dispatch env ["chapter", a] s).1.dbg.command = some CmdId.chapter ∧
      (dispatch env ["chapter", a] s).1.dbg.commandParams = some ["chapter", a] ∧
      (dispatch env ["chapter", a] s).1.dbg.detachRequested = true ∧
      (dispatch env ["chapter", a] s).2 = false) ∧
    (2 ≤ getNumber a → getNumber a ≤ 6 →
      s.dbg.command = some CmdId.chapter → s.dbg.numParams = 2 →
      s.dbg.commandParams = some ["chapter", a] →
      (pump env s).log = s.log ++ [Effect.switchChapter (getNumber a - 1).toNat] ∧
      (pump env s).game.chapter = env.chapterAfterSwitch (getNumber a - 1).toNat ∧
      slotCleared (pump env s)) := by
  have hh : handlerFor "chapter" = some CmdId.chapter := rfl
  have hd : ∀ t : S, dispatch env ["chapter", a] t = cmdSwitchChapter env 2 ["chapter", a] t := by
    intro t; simp [dispatch, hh, runCmd]
  refine ⟨?_, ?_, ?_⟩
  · intro hbad
    rw [hd]
    unfold cmdSwitchChapter
    rw [if_pos rfl]
    simp only [List.getD_cons_succ, List.getD_cons_zero]
    rw [if_pos hbad]
  · intro h3 hnc
    rw [hd]
    unfold cmdSwitchChapter
    rw [if_pos rfl]
    simp only [List.getD_cons_succ, List.getD_cons_zero, h3]
    rw [if_neg (by norm_num), if_pos hnc]
    exact ⟨by simp [hasCommand], by simp, by simp [List.take], by simp, rfl⟩
  · intro h2 h6 hcm hnum hcp
    have hp : pump env s = (runCmd CmdId.chapter env 2 ["chapter", a] s).1 := by
      simp [pump, callCommand, hcm, hnum, hcp]
    rw [hp]
    simp only [runCmd]
    unfold cmdSwitchChapter
    rw [if_pos rfl]
    simp only [List.getD_cons_succ, List.getD_cons_zero]
    rw [if_neg (by omega), if_neg (by simp [hasCommand, hnum])]
    refine ⟨by simp, by simp, by simp, by simp, by simp⟩

/-- Witness for C7: chapter 1 and chapter 7 reject with the usage text and
change nothing; chapter 3 defers; the executing pump on the stored
chapter 3 command sets chapter 2 and clears the slot. -/
theorem chapter_command_witness :
    dispatch envOk ["chapter", "1"] initState =
      (emit (.print "Syntax: chapter <id> (id=2-6)") initState, true) ∧
    dispatch envOk ["chapter", "7"] initState =
      (emit (.print "Syntax: chapter <id> (id=2-6)") initState, true) ∧
    (dispatch envOk ["chapter", "3"] initState).1.dbg.command = some CmdId.chapter ∧
    (pump envOk c1state).game.chapter = envOk.chapterAfterSwitch 2 ∧
    slotCleared (pump envOk c1state) := by
  have h3 := (chapter_command envOk c1state "3").2.2 (by decide) (by decide) (by decide)
    (by decide) (by decide)
  refine ⟨(chapter_command envOk initState "1").1 (by decide),
          (chapter_command envOk initState "7").1 (by decide),
          ((chapter_command envOk initState "3").2.1 (by decide) (by decide)).2.1,
          ?_, h3.2.2⟩
  have heq : (getNumber "3" - 1).toNat = 2 := by decide
  have := h3.2.1
  rw [heq] at this
  exact this

/-- C5: dispatching fight with the Anna id (2002, whose assets live on
volume 2) from the console context mounts volume 2 and defers; the
executing pump re-mounts volume 2, runs the scripted fight, and - on the
won and the lost branch alike (the trace below covers both through the
fightLost oracle) - redraws the scene that was active before the fight
and remounts the current chapter's policy-default volume, then clears the
pending command. -/
theorem fight_anna (env : Env) (s : S) (a : String)
    (hid : getNumber a = kFightAnna)
    (hpend : hasCommand s = false)
    (hcd2 : env.canLoad 2 = true)
    (hcd : env.canLoad (defaultVolumeForChapter s.game.chapter) = true) :
    (dispatch env ["fight", a] s).1.game.mountedVolume = 2 ∧
    hasCommand (dispatch env ["fight", a] s).1 = true ∧
    (pump env (dispatch env ["fight", a] s).1).game.mountedVolume =
      defaultVolumeForChapter s.game.chapter ∧
    (pump env (dispatch env ["fight", a] s).1).game.sceneDataVolume =
      defaultVolumeForChapter s.game.chapter ∧
    (pump env (dispatch env ["fight", a] s).1).log = s.log ++
      [Effect.clearBg Bg.all, Effect.askForRedraw, Effect.redrawScreen,
       Effect.fightSetup kFightAnna,
       Effect.print (if env.fightLost kFightAnna then "Lost fight!" else "Won fight!"),
       Effect.delayMillis 1000, Effect.stopAllSound, Effect.clearBg Bg.all,
       Effect.drawScene s.game.scene, Effect.askForRedraw, Effect.redrawScreen] ∧
    slotCleared (pump env (dispatch env ["fight", a] s).1) := by
  have hh : handlerFor "fight" = some CmdId.fight := rfl
  have hd : dispatch env ["fight", a] s = cmdFight env 2 ["fight", a] s := by
    simp [dispatch, hh, runCmd]
  have hL : ∀ t0 : S, loadArchive env (Int.ofNat 2) t0 =
      ({ t0 with game.mountedVolume := 2, game.sceneDataVolume := 2 }, true) := by
    intro t0
    simp [loadArchive, hcd2]
  have hidx : (if getNumber a = kFightMilos then kArchiveCd1
      else if getNumber a = kFightAnna then kArchiveCd2 else kArchiveCd3) = 2 := by
    rw [hid]; decide
  have hphase1 : (dispatch env ["fight", a] s).1 =
      copyCommand 2 ["fight", a]
        { { s with game.mountedVolume := 2, game.sceneDataVolume := 2 } with
          dbg.command := some CmdId.fight } := by
    rw [hd]
    unfold cmdFight
    rw [if_pos rfl]
    simp only [List.getD_cons_succ, List.getD_cons_zero]
    rw [if_pos (Or.inr (Or.inl hid)), hidx, hL s]
    dsimp only
    split
    next h => rfl
    next h => exact absurd hpend h
  rw [hphase1]
  refine ⟨by simp, by simp [hasCommand], ?_⟩
  have hpump : pump env (copyCommand 2 ["fight", a]
      { { s with game.mountedVolume := 2, game.sceneDataVolume := 2 } with
        dbg.command := some CmdId.fight }) =
      (cmdFight env 2 ["fight", a] (copyCommand 2 ["fight", a]
        { { s with game.mountedVolume := 2, game.sceneDataVolume := 2 } with
          dbg.command := some CmdId.fight })).1 := by
    simp [pump, callCommand, runCmd, copyCommand, cmdExit, List.take]
  rw [hpump]
  unfold cmdFight
  rw [if_pos rfl]
  simp only [List.getD_cons_succ, List.getD_cons_zero]
  rw [if_pos (Or.inr (Or.inl hid)), hidx, hL _]
  dsimp only
  split
  next h => simp [hasCommand, copyCommand, cmdExit] at h
  next h =>
    refine ⟨?_, ?_, ?_, ?_⟩
    · simp [restoreArchive_mounted, hcd, copyCommand, cmdExit]
    · simp [copyCommand, cmdExit]
    · simp [copyCommand, cmdExit, hid, List.append_assoc]
    · exact ⟨by simp, by simp, by simp⟩

/-- Witness for C5: fight 2002 from the idle initial state (chapter 1, so
the policy default is volume 1) mounts volume 2, and the pump restores
volume 1 and clears the slot. -/
theorem fight_anna_witness :
    getNumber "2002" = kFightAnna ∧
    (dispatch envOk ["fight", "2002"] initState).1.game.mountedVolume = 2 ∧
    (pump envOk (dispatch envOk ["fight", "2002"] initState).1).game.mountedVolume =
      defaultVolumeForChapter initState.game.chapter ∧
    slotCleared (pump envOk (dispatch envOk ["fight", "2002"] initState).1) := by
  have h := fight_anna envOk initState "2002" (by decide) (by decide) (by decide) (by decide)
  exact ⟨by decide, h.1, h.2.2.1, h.2.2.2.2.2⟩

/-- C4: in the beetle command's executing phase, the triple captured before
the staged sequence - current scene, beetle item location, chapter - is
restored after the interactive sub-loop on every exit of that loop
(escape key or catching the beetle - the exit reason is the
beetleEvents oracle; the hypothesis on hung states only that the loop
exited): chapter and item location are written back to their captured
values, the state's scene was never overwritten and the previously active
scene is redrawn at the end of the trace, the archive is remounted to the
captured chapter's default volume, and the pending command is cleared. -/
theorem beetle_restores_snapshot (env : Env) (s : S)
    (hcm : s.dbg.command = some CmdId.beetle)
    (hnum : s.dbg.numParams = 1)
    (hcd2 : env.canLoad 2 = true)
    (hdone : (pump env s).game.hung = false) :
    (pump env s).game.chapter = s.game.chapter ∧
    (pump env s).game.beetleLocation = s.game.beetleLocation ∧
    (pump env s).game.scene = s.game.scene ∧
    (pump env s).game.sceneDataVolume = defaultVolumeForChapter s.game.chapter ∧
    (env.canLoad (defaultVolumeForChapter s.game.chapter) = true →
      (pump env s).game.mountedVolume = defaultVolumeForChapter s.game.chapter) ∧
    (∃ l, (pump env s).log = l ++
      [Effect.delayMillis 1000, Effect.stopAllSound, Effect.clearBg Bg.all,
       Effect.drawScene s.game.scene, Effect.askForRedraw, Effect.redrawScreen]) ∧
    slotCleared (pump env s) := by
  have hp : pump env s =
      (cmdBeetle env 1 (s.dbg.commandParams.getD []) s).1 := by
    simp [pump, callCommand, hcm, hnum, runCmd]
  have hL : loadArchive env (Int.ofNat kArchiveCd2) s =
      ({ s with game.mountedVolume := 2, game.sceneDataVolume := 2 }, true) := by
    simp [loadArchive, kArchiveCd2, hcd2]
  rw [hp] at hdone ⊢
  unfold cmdBeetle at hdone ⊢
  rw [if_pos rfl] at hdone ⊢
  rw [hL] at hdone ⊢
  dsimp only at hdone ⊢
  split
  next h => simp [hasCommand, hnum] at h
  next h =>
    rw [if_neg h] at hdone
    split
    next s2 heq2 =>
      rw [heq2] at hdone
      simp at hdone
    next s2 heq2 =>
      have hs2 := beetleOuter_eq_preserved heq2
      refine ⟨by simp, by simp, ?_, by simp, ?_, ?_, by simp, by simp, by simp⟩
      · simp [hs2.2.2.1]
      · intro hcl
        simp [restoreArchive_mounted, hcl]
      · refine ⟨s2.log, ?_⟩
        simp [List.append_assoc]

/-- A chapter-3 state with a pending beetle command, obtained by dispatching
beetle from the console (fixture for the C4 witness). -/
def c4state : S :=
  (dispatch envOk ["beetle"]
    { initState with game.chapter := 3, game.beetleLocation := 7, game.scene := 42 }).1

/-- Witness for C4: beetle dispatched from a chapter-3 state with the sub-
loop exiting on the escape key; the pump restores chapter 3, the item
location, remounts volume 2 (the chapter-3 default) and clears the slot. -/
theorem beetle_restores_snapshot_witness :
    hasCommand c4state = true ∧
    (pump envOk c4state).game.hung = false ∧
    (pump envOk c4state).game.chapter = c4state.game.chapter ∧
    (pump envOk c4state).game.beetleLocation = c4state.game.beetleLocation ∧
    (pump envOk c4state).game.mountedVolume =
      defaultVolumeForChapter c4state.game.chapter ∧
    slotCleared (pump envOk c4state) := by
  have h := beetle_restores_snapshot envOk c4state (by decide) (by decide) (by decide)
    (by decide)
  exact ⟨by decide, by decide, h.1, h.2.1, h.2.2.2.2.1 (by decide), h.2.2.2.2.2.2⟩

end LastExpress

